import Mathlib

/-!
Verification of the asynchronous job pipeline of the Replay server
(`server/src/services/jobs_service.py`, `server/src/services/transcription_service.py`,
`server/src/services/session_service.py`, `server/src/app.py`).

The relational rows and the in-process dispatch queue are shallowly embedded:
a `JobStore` is the `jobs` table (kept in `created_at` ascending order, which
is insertion order since ids and timestamps are assigned monotonically)
together with the `asyncio.Queue` of job ids, and the service methods become
pure state-transformer functions.  The pipeline handler and the worker loop
are embedded as functions over an explicit `DB` state, with external effects
(the Gemini call, filesystem existence, fault injection on commits, the
wall-clock timeout) passed in as explicit parameters.
-/

namespace Replay

/-- `JobStatus` from `models/job.py` (`pending|processing|completed|failed`). -/
inductive JobStatus
  | pending
  | processing
  | completed
  | failed
deriving DecidableEq, Repr

/-- One row of the `jobs` table (`models/job.py`).  `payload` is
`json.dumps({"session_id": session.id})`; since the only field ever read back
(`app.py` handler: `payload["session_id"]`) is the session id, the payload is
embedded as that id.  `createdAt` is a logical timestamp (rows are inserted
with monotonically increasing `created_at`). -/
structure Job where
  id : Nat
  jobType : String
  sessionId : Option Nat
  payload : Nat
  status : JobStatus
  attempts : Nat
  error : Option String
  createdAt : Nat
deriving DecidableEq, Repr

/-- The job store: the `jobs` table (list kept in `created_at` ascending
order) plus the in-process `asyncio.Queue[int]` of job ids
(`JobsService._queue`; `put` appends at the tail, `get_nowait` pops the
head). -/
structure JobStore where
  jobs : List Job
  queue : List Nat
deriving DecidableEq, Repr

/-- `db.get(Job, job_id)`: look a job up by primary key. -/
def findJob (jobs : List Job) (jid : Nat) : Option Job :=
  jobs.find? (fun j => j.id = jid)

/-- ORM flush of a mutated `Job` object: the row with the same primary key
takes the new value. -/
def setJob (jobs : List Job) (j' : Job) : List Job :=
  jobs.map (fun j => if j.id = j'.id then j' else j)

/-- `JobsService.enqueue_transcription`: insert a `pending` job with
`attempts = 0` and push its id onto the dispatch queue.  `nextId` is the
autoincremented primary key and `now` the `created_at` timestamp. -/
def enqueueTranscription (st : JobStore) (nextId : Nat) (sid : Nat) (now : Nat) :
    Job × JobStore :=
  let job : Job :=
    { id := nextId, jobType := "transcription", sessionId := some sid,
      payload := sid, status := .pending, attempts := 0, error := none,
      createdAt := now }
  (job, { jobs := st.jobs ++ [job], queue := st.queue ++ [nextId] })

/-- `JobsService.reserve_next`: pop an id from the dispatch queue and fetch
that specific job by id (`db.get`, with no status filter); when the queue is
empty, fall back to `select(Job).where(Job.status == "pending")
.order_by(Job.created_at.asc())` and take the first row (modelled as the
first `pending` job of the `created_at`-ordered list).  Whatever job was
found is flipped to `processing` with `attempts += 1` and returned. -/
def reserveNext (st : JobStore) : Option Job × JobStore :=
  match st.queue with
  | jid :: rest =>
      match findJob st.jobs jid with
      | none => (none, { st with queue := rest })
      | some j =>
          let j' := { j with status := JobStatus.processing, attempts := j.attempts + 1 }
          (some j', { jobs := setJob st.jobs j', queue := rest })
  | [] =>
      match st.jobs.find? (fun j => j.status = JobStatus.pending) with
      | none => (none, st)
      | some j =>
          let j' := { j with status := JobStatus.processing, attempts := j.attempts + 1 }
          (some j', { st with jobs := setJob st.jobs j' })

/-- `JobsService.mark_complete`: set the job's status to `completed`. -/
def markComplete (st : JobStore) (j : Job) : JobStore :=
  { st with jobs := setJob st.jobs { j with status := JobStatus.completed } }

/-- The cancellation note written by `cancel_session_jobs`. -/
def cancelNote : String := "Cancelled by user (session deleted)"

/-- `JobsService.mark_failed`: if `attempts < max_retries`, reset to
`pending` with a retry note (`f"Retry {job.attempts}/{max_retries}:
{error[:200]}"`) and re-enqueue the id; otherwise set `failed` with
`error[:255]`.  `run_worker` calls this with the default `max_retries = 3`. -/
def markFailed (st : JobStore) (j : Job) (error : String) (maxRetries : Nat) :
    JobStore :=
  if j.attempts < maxRetries then
    let j' := { j with
      status := JobStatus.pending,
      error := some ("Retry " ++ toString j.attempts ++ "/" ++ toString maxRetries
        ++ ": " ++ error.take 200) }
    { jobs := setJob st.jobs j', queue := st.queue ++ [j.id] }
  else
    let j' := { j with status := JobStatus.failed, error := some (error.take 255) }
    { st with jobs := setJob st.jobs j' }

/-- The filter of `cancel_session_jobs`'s SELECT:
`Job.session_id == session_id, Job.status.in_(["pending", "processing"])`. -/
def cancelTarget (sid : Nat) (j : Job) : Bool :=
  j.sessionId = some sid &&
    (j.status = JobStatus.pending || j.status = JobStatus.processing)

/-- The mutation `cancel_session_jobs` applies to each selected job. -/
def cancelJob (j : Job) : Job :=
  { j with status := JobStatus.failed, error := some cancelNote }

/-- `JobsService.cancel_session_jobs`: select every `pending`/`processing`
job of the session, flip each to `failed` with the cancellation note, and
return how many were flipped. -/
def cancelSessionJobs (st : JobStore) (sid : Nat) : Nat × JobStore :=
  let matching := st.jobs.filter (cancelTarget sid)
  let jobs' := matching.foldl (fun acc m => setJob acc (cancelJob m)) st.jobs
  (matching.length, { st with jobs := jobs' })

/-- `SessionStatus` from `models/enums.py`. -/
inductive SessionStatus
  | uploaded
  | processing
  | ready
  | failed
deriving DecidableEq, Repr

/-- A Python value, as far as the pipeline inspects the Gemini result
(`isinstance` checks, truthiness, `dict.get`, `str()`). -/
inductive PyVal
  | none
  | bool (b : Bool)
  | int (n : Int)
  | str (s : String)
  | list (xs : List PyVal)
  | dict (entries : List (String × PyVal))

/-- Python truthiness (`if summary_text:` and friends). -/
def truthy : PyVal → Bool
  | .none => false
  | .bool b => b
  | .int n => n != 0
  | .str s => s != ""
  | .list xs => !xs.isEmpty
  | .dict es => !es.isEmpty

mutual
/-- Python `repr()` restricted to the values above (`str(x)` of a non-`str`
`x` agrees with `repr(x)` for ints, bools, `None`, lists and dicts). -/
def pyRepr : PyVal → String
  | .none => "None"
  | .bool true => "True"
  | .bool false => "False"
  | .int n => toString n
  | .str s => "\x27" ++ s ++ "\x27"
  | .list xs => "[" ++ pyReprList xs ++ "]"
  | .dict es => "\x7b" ++ pyReprEntries es ++ "\x7d"

def pyReprList : List PyVal → String
  | [] => ""
  | [x] => pyRepr x
  | x :: y :: xs => pyRepr x ++ ", " ++ pyReprList (y :: xs)

def pyReprEntries : List (String × PyVal) → String
  | [] => ""
  | [(k, v)] => "\x27" ++ k ++ "\x27: " ++ pyRepr v
  | (k, v) :: e :: es => "\x27" ++ k ++ "\x27: " ++ pyRepr v ++ ", " ++ pyReprEntries (e :: es)
end

/-- Python `str()`: identity on strings, `repr`-rendering otherwise. -/
def pyStr : PyVal → String
  | .str s => s
  | v => pyRepr v

def isDict : PyVal → Bool
  | .dict _ => true
  | _ => false

def isStr : PyVal → Bool
  | .str _ => true
  | _ => false

def isPyList : PyVal → Bool
  | .list _ => true
  | _ => false

/-- `d.get(k, dflt)` on a Python dict. -/
def pyGetD (v : PyVal) (k : String) (dflt : PyVal) : PyVal :=
  match v with
  | .dict es =>
      match es.find? (fun e => e.1 = k) with
      | some e => e.2
      | Option.none => dflt
  | _ => dflt

/-- One row of the `sessions` table (`models/session.py`), together with the
two facts about its audio asset the handler consults: whether the
`audio_asset` relation is present, and whether
`storage.resolve_asset_path(asset).exists()` holds for it. -/
structure SessionRow where
  id : Nat
  userId : Nat
  status : SessionStatus
  title : Option String
  durationSec : Option Nat
  hasAudioAsset : Bool
  audioFileExists : Bool
deriving DecidableEq, Repr

/-- One row of the `transcripts` table (`models/transcript.py`); the
session-unique constraint is on `session_id`. -/
structure TranscriptRow where
  sessionId : Nat
  text : String
  segments : List PyVal
  speakers : List PyVal

/-- One row of the `summaries` table (`models/summary.py`). -/
structure SummaryRow where
  sessionId : Nat
  summaryText : String
  actionItems : List PyVal
  timeline : List PyVal
  decisions : List PyVal

/-- The relational state the pipeline handler reads and writes. -/
structure DB where
  sessions : List SessionRow
  transcripts : List TranscriptRow
  summaries : List SummaryRow

def findSession (db : DB) (sid : Nat) : Option SessionRow :=
  db.sessions.find? (fun s => s.id = sid)

def findTranscript (db : DB) (sid : Nat) : Option TranscriptRow :=
  db.transcripts.find? (fun t => t.sessionId = sid)

def findSummary (db : DB) (sid : Nat) : Option SummaryRow :=
  db.summaries.find? (fun t => t.sessionId = sid)

def setSessionStatus (db : DB) (sid : Nat) (st : SessionStatus) : DB :=
  { db with sessions := db.sessions.map (fun s => if s.id = sid then { s with status := st } else s) }

def setSessionTitle (db : DB) (sid : Nat) (t : Option String) : DB :=
  { db with sessions := db.sessions.map (fun s => if s.id = sid then { s with title := t } else s) }

/-- The structured Gemini result (`gemini_service.transcribe_and_analyze`):
`result["text"]`, `result.get("segments", [])`, `result.get("speakers", [])`,
`result.get("title")` and `result.get("summary", {})`.  The `summary` field
is kept as a raw Python value because `process_session` type-checks it;
`none` models an absent key. -/
structure AiResult where
  text : String
  segments : List PyVal
  speakers : List PyVal
  title : Option String
  summaryField : Option PyVal

/-! ### The title-looks-auto-generated heuristic
(`process_session`, lines 100–115).  Python regexes are embedded directly:
`re.match` anchors at the start only, so a pattern without `$` is a prefix
match; `\d` is modelled as an ASCII digit. -/

/-- `re.match(r'^\d\x7b4\x7d-\d\x7b2\x7d-\d\x7b2\x7d[_-]\d\x7b2\x7d[:-]\d\x7b2\x7d[:-]\d\x7b2\x7d', t)`:
a timestamp-like prefix. -/
def timestampLikeTitle (t : String) : Bool :=
  match t.data with
  | y1 :: y2 :: y3 :: y4 :: sA :: mo1 :: mo2 :: sB :: d1 :: d2 :: sC
      :: h1 :: h2 :: sD :: mi1 :: mi2 :: sE :: se1 :: se2 :: _ =>
      y1.isDigit && y2.isDigit && y3.isDigit && y4.isDigit &&
      sA == '-' && mo1.isDigit && mo2.isDigit && sB == '-' &&
      d1.isDigit && d2.isDigit &&
      (sC == '_' || sC == '-') && h1.isDigit && h2.isDigit &&
      (sD == ':' || sD == '-') && mi1.isDigit && mi2.isDigit &&
      (sE == ':' || sE == '-') && se1.isDigit && se2.isDigit
  | _ => false

/-- The alternation `(recording|audio|file|untitled|new recording)`. -/
def genericTitleWords : List String :=
  ["recording", "audio", "file", "untitled", "new recording"]

/-- The regex tail `[_-]?\d*$`: an optional single separator followed by
digits only. -/
def genericTitleTail (r : List Char) : Bool :=
  match r with
  | [] => true
  | c :: rest =>
      if c == '_' || c == '-' then rest.all Char.isDigit
      else (c :: rest).all Char.isDigit

/-- `re.match(r'^(recording|audio|file|untitled|new recording)[_-]?\d*$', t, re.IGNORECASE)`. -/
def genericFilenameTitle (t : String) : Bool :=
  let lower := t.toLower
  genericTitleWords.any (fun w => lower.startsWith w && genericTitleTail ((lower.drop w.length).data))

/-- `re.match(r'^\d\x7b10,\x7d$', t)`: a raw unix-timestamp-like number. -/
def longDigitTitle (t : String) : Bool :=
  decide (10 ≤ t.length) && t.data.all Char.isDigit

def isHexChar (c : Char) : Bool :=
  c.isDigit || (decide ('a' ≤ c) && decide (c ≤ 'f')) || (decide ('A' ≤ c) && decide (c ≤ 'F'))

/-- `re.match(r'^[a-f0-9]\x7b8,\x7d$', t, re.IGNORECASE)`: an opaque
hex/UUID-like string. -/
def hexLikeTitle (t : String) : Bool :=
  decide (8 ≤ t.length) && t.data.all isHexChar

/-- The `is_auto_generated` disjunction of `process_session`. -/
def isAutoGeneratedTitle (t : String) : Bool :=
  t.startsWith "Session " || timestampLikeTitle t || genericFilenameTitle t ||
    longDigitTitle t || hexLikeTitle t

/-- `if result.get("title") and session_obj.title:` followed by the
`is_auto_generated` check (Python string truthiness: non-empty). -/
def shouldUpdateTitle (s : SessionRow) (r : AiResult) : Bool :=
  match r.title, s.title with
  | some rt, some st => rt != "" && st != "" && isAutoGeneratedTitle st
  | _, _ => false

/-! ### The summary-field validation block (`process_session`, lines 129–161) -/

structure SummaryFields where
  summaryText : String
  actionItems : List PyVal
  timeline : List PyVal
  decisions : List PyVal

/-- The literal dict substituted when `summary_data` is not a dict. -/
def emptySummaryDict : PyVal :=
  .dict [("summary", .str ""), ("action_items", .list []),
         ("timeline", .list []), ("decisions", .list [])]

/-- `summary_text = str(summary_text) if summary_text else ""`, applied only
when `summary_text` is not already a `str`. -/
def coerceSummaryText (v : PyVal) : String :=
  match v with
  | .str s => s
  | v => if truthy v then pyStr v else ""

/-- Wrong-typed list subfields are replaced by `[]`. -/
def coerceSummaryList (v : PyVal) : List PyVal :=
  match v with
  | .list xs => xs
  | _ => []

/-- `summary_data = result.get("summary", \x7b\x7d)` followed by the dict
check and the per-field type coercions. -/
def extractSummaryFields (summaryField : Option PyVal) : SummaryFields :=
  let summaryData := summaryField.getD (.dict [])
  let summaryData := if isDict summaryData then summaryData else emptySummaryDict
  { summaryText := coerceSummaryText (pyGetD summaryData "summary" (.str "")),
    actionItems := coerceSummaryList (pyGetD summaryData "action_items" (.list [])),
    timeline := coerceSummaryList (pyGetD summaryData "timeline" (.list [])),
    decisions := coerceSummaryList (pyGetD summaryData "decisions" (.list [])) }

/-! ### `TranscriptionService.process_session` -/

/-- The exceptions the handler can raise, with the HTTP status/detail they
carry in the source. -/
inductive PErr
  | sessionNotFound
  | missingAsset
  | audioFileMissing
  | geminiError (msg : String)
  | transcriptSaveFailed (msg : String)
  | timedOut
deriving DecidableEq, Repr

/-- Fault injection for the two guarded commits of `process_session`:
`some msg` makes the corresponding `db.commit()` raise with that message
(the session stays on the rolled-back state). -/
structure Faults where
  transcriptSaveFail : Option String
  summarySaveFail : Option String
deriving DecidableEq, Repr

def noFaults : Faults := { transcriptSaveFail := none, summarySaveFail := none }

/-- The `Transcript` row `process_session` constructs from the Gemini
result. -/
def transcriptRowOf (sid : Nat) (result : AiResult) : TranscriptRow :=
  { sessionId := sid, text := result.text, segments := result.segments,
    speakers := result.speakers }

/-- The `Summary` row `process_session` constructs from the (validated)
summary field of the Gemini result. -/
def summaryRowOf (sid : Nat) (result : AiResult) : SummaryRow :=
  { sessionId := sid,
    summaryText := (extractSummaryFields result.summaryField).summaryText,
    actionItems := (extractSummaryFields result.summaryField).actionItems,
    timeline := (extractSummaryFields result.summaryField).timeline,
    decisions := (extractSummaryFields result.summaryField).decisions }

/-- Step 5 of the handler: create the `Transcript` row if none exists; a
failing commit is rolled back and re-raised as an `HTTPException`. -/
def transcriptStep (db : DB) (sid : Nat) (result : AiResult) (faults : Faults) :
    Except String DB :=
  if (findTranscript db sid).isSome then .ok db
  else
    match faults.transcriptSaveFail with
    | some msg => .error msg
    | none => .ok { db with transcripts := db.transcripts ++ [transcriptRowOf sid result] }

/-- Step 6 of the handler: overwrite the title with the AI suggestion iff
`shouldUpdateTitle`. -/
def titleStep (db : DB) (sid : Nat) (s : SessionRow) (r : AiResult) : DB :=
  if shouldUpdateTitle s r then setSessionTitle db sid r.title else db

/-- Step 7 of the handler: create the `Summary` row if none exists; a
failing commit is rolled back and the exception swallowed (`pass`). -/
def summaryStep (db : DB) (sid : Nat) (r : AiResult) (faults : Faults) : DB :=
  if (findSummary db sid).isSome then db
  else
    match faults.summarySaveFail with
    | some _ => db
    | none => { db with summaries := db.summaries ++ [summaryRowOf sid r] }

/-- Steps 6–8 of the handler, applied to the outcome of the transcript
commit: a failing transcript commit is re-raised; otherwise retitle, save
the summary, and set the status to `ready` iff both rows now exist, else
`processing`. -/
def transcriptOutcome (db : DB) (sid : Nat) (s : SessionRow) (result : AiResult)
    (faults : Faults) : Except String DB → Except PErr Unit × DB
  | .error msg => (.error (.transcriptSaveFailed msg), db)
  | .ok db1 =>
      let db3 := summaryStep (titleStep db1 sid s result) sid result faults
      let final := if (findTranscript db3 sid).isSome && (findSummary db3 sid).isSome
                   then SessionStatus.ready else SessionStatus.processing
      (.ok (), setSessionStatus db3 sid final)

/-- Step 4 of the handler, applied to the Gemini outcome: an exception marks
the session `failed` and re-raises; otherwise continue with steps 5–8. -/
def geminiStep (db : DB) (sid : Nat) (s : SessionRow) (faults : Faults) :
    Except String AiResult → Except PErr Unit × DB
  | .error msg => (.error (.geminiError msg), setSessionStatus db sid .failed)
  | .ok result => transcriptOutcome db sid s result faults (transcriptStep db sid result faults)

/-- `TranscriptionService.process_session`, in the source's order: load the
session with its relations (404 if absent, 400 if no asset), check the audio
file on disk (404 if missing), short-circuit to `ready` if both rows already
exist, then run the Gemini call and the persistence steps
(`geminiStep`/`transcriptOutcome`). -/
def processSession (db : DB) (sessionId : Nat)
    (gemini : Except String AiResult) (faults : Faults) : Except PErr Unit × DB :=
  match findSession db sessionId with
  | none => (.error .sessionNotFound, db)
  | some s =>
    if !s.hasAudioAsset then (.error .missingAsset, db)
    else if !s.audioFileExists then (.error .audioFileMissing, db)
    else if (findTranscript db sessionId).isSome && (findSummary db sessionId).isSome then
      (.ok (), setSessionStatus db sessionId .ready)
    else geminiStep db sessionId s faults gemini

/-! ### The `app.py` worker handler and `JobsService.run_worker` -/

/-- `db.get(Session, session_id)` followed by setting `failed` and
committing, as the `app.py` handler's `except` branches do. -/
def setSessionFailedIfExists (db : DB) (sid : Nat) : DB :=
  match findSession db sid with
  | some _ => setSessionStatus db sid .failed
  | none => db

/-- The environment of one handler invocation: the Gemini outcome, the
injected commit faults, and whether the ten-minute `asyncio.wait_for`
deadline fired.  (A firing timeout cancels `process_session` at an await
point; the partial effects it may have committed before the cancellation are
not modelled — the timeout branch models the wrapper's own actions.) -/
structure HandlerEnv where
  gemini : Except String AiResult
  faults : Faults
  timedOut : Bool

/-- The `except`-clause dispatch of the `app.py` handler, applied to the
outcome of `process_session`: success passes through; an exception marks the
session `failed` (when it exists) and re-raises. -/
def handlerOutcome (sessionId : Nat) : Except PErr Unit × DB → Except PErr Unit × DB
  | (.ok _, db1) => (.ok (), db1)
  | (.error e, db1) => (.error e, setSessionFailedIfExists db1 sessionId)

/-- The `handler` closure of `app.py`: run `process_session` under the
deadline; on `TimeoutError` or any other exception, mark the session
`failed` (when it exists) and re-raise. -/
def appHandler (env : HandlerEnv) (db : DB) (job : Job) : Except PErr Unit × DB :=
  let sessionId := job.payload
  if env.timedOut then
    (.error .timedOut, setSessionFailedIfExists db sessionId)
  else
    handlerOutcome sessionId (processSession db sessionId env.gemini env.faults)

/-- `f"\x7btype(e).__name__\x7d: \x7bstr(e)\x7d"` as computed by
`run_worker`; FastAPI's `HTTPException` stringifies as
`"\x7bstatus_code\x7d: \x7bdetail\x7d"`. -/
def workerErrorMsg : PErr → String
  | .sessionNotFound => "HTTPException: 404: Session not found"
  | .missingAsset => "HTTPException: 400: Session missing audio asset"
  | .audioFileMissing => "HTTPException: 404: Audio file missing"
  | .geminiError msg => "HTTPException: 500: Gemini API error: " ++ msg
  | .transcriptSaveFailed msg => "HTTPException: 500: Failed to save transcript: " ++ msg
  | .timedOut => "TimeoutError: "

/-- The outcome recording of one found-a-job iteration of `run_worker`:
on success `mark_complete`, on exception `mark_failed` with the computed
error message; yields the store and database the loop continues from. -/
def recordOutcome (maxRetries : Nat) (store1 : JobStore) (job : Job) :
    Except PErr Unit × DB → JobStore × DB
  | (.ok _, db1) => (markComplete store1 job, db1)
  | (.error e, db1) => (markFailed store1 job (workerErrorMsg e) maxRetries, db1)

/-- `JobsService.run_worker`, fuel-bounded (the source loops forever; one
unit of fuel is one loop iteration, a no-job iteration being the
poll-interval sleep).  Returns the final store and database and how many
times the handler was invoked.  On handler success `mark_complete` runs; on
exception `mark_failed` runs with `mark_failed`'s `max_retries` parameter,
which is `3` at `run_worker`'s call site (the parameter's default); the
backoff sleep has no state effect. -/
def runWorkerFuel (handler : DB → Job → Except PErr Unit × DB)
    (maxRetries fuel : Nat) (store : JobStore) (db : DB) : JobStore × DB × Nat :=
  match fuel with
  | 0 => (store, db, 0)
  | Nat.succ fuel =>
    match reserveNext store with
    | (none, store1) => runWorkerFuel handler maxRetries fuel store1 db
    | (some job, store1) =>
      let next := recordOutcome maxRetries store1 job (handler db job)
      let r := runWorkerFuel handler maxRetries fuel next.1 next.2
      (r.1, r.2.1, r.2.2 + 1)

/-- `SessionService.delete_session`: load the session scoped to the user
(404 if absent), cancel its outstanding jobs, best-effort unlink the audio
file (no database effect), then delete the row — transcript and summary
cascade away and the jobs' `session_id` foreign key is `SET NULL`.  Returns
the cancelled-job count alongside the new states. -/
def deleteSession (db : DB) (store : JobStore) (userId sid : Nat) :
    Except PErr (DB × JobStore × Nat) :=
  match db.sessions.find? (fun s => s.id = sid && s.userId = userId) with
  | none => .error .sessionNotFound
  | some _ =>
    let p := cancelSessionJobs store sid
    let nullSid : Job → Job :=
      fun j => if j.sessionId = some sid then { j with sessionId := none } else j
    let store2 : JobStore := { p.2 with jobs := p.2.jobs.map nullSid }
    let db1 : DB :=
      { sessions := db.sessions.filter (fun s => !(s.id = sid && s.userId = userId)),
        transcripts := db.transcripts.filter (fun t => !(t.sessionId = sid)),
        summaries := db.summaries.filter (fun t => !(t.sessionId = sid)) }
    .ok (db1, store2, p.1)

/-! ### Auxiliary lemmas about the store embedding -/

/-- The status of the job row with primary key `jid`, if any. -/
def statusOf (jobs : List Job) (jid : Nat) : Option JobStatus :=
  (findJob jobs jid).map Job.status

lemma findJob_nil (jid : Nat) : findJob [] jid = none := rfl

lemma findJob_cons (a : Job) (tl : List Job) (jid : Nat) :
    findJob (a :: tl) jid = if a.id = jid then some a else findJob tl jid := by
  by_cases h : a.id = jid
  · simp [findJob, List.find?, h]
  · simp [findJob, List.find?, h]

lemma findJob_eq_of_mem (jobs : List Job) (j : Job)
    (hnd : jobs.Pairwise (fun a b => a.id ≠ b.id)) (hj : j ∈ jobs) :
    findJob jobs j.id = some j := by
  induction jobs with
  | nil => cases hj
  | cons a tl ih =>
      rcases List.mem_cons.mp hj with rfl | hj'
      · simp [findJob_cons]
      · have hne : a.id ≠ j.id := (List.pairwise_cons.mp hnd).1 j hj'
        rw [findJob_cons, if_neg hne]
        exact ih (List.pairwise_cons.mp hnd).2 hj'

lemma findJob_setJob (jobs : List Job) (j' : Job) (jid : Nat) :
    findJob (setJob jobs j') jid =
      if jid = j'.id then (findJob jobs j'.id).map (fun _ => j')
      else findJob jobs jid := by
  induction jobs with
  | nil => by_cases h : jid = j'.id <;> simp [setJob, findJob_nil, h]
  | cons a tl ih =>
      have hset : setJob (a :: tl) j' = (if a.id = j'.id then j' else a) :: setJob tl j' := rfl
      by_cases ha : a.id = j'.id
      · rw [hset, if_pos ha, findJob_cons]
        by_cases hj : jid = j'.id
        · subst hj
          rw [if_pos rfl, if_pos rfl, findJob_cons, if_pos ha]
          rfl
        · have h1 : ¬ j'.id = jid := fun h => hj h.symm
          have haj : ¬ a.id = jid := fun h => hj (h ▸ ha)
          rw [if_neg h1, if_neg hj, findJob_cons, if_neg haj, ih, if_neg hj]
      · rw [hset, if_neg ha, findJob_cons]
        by_cases hj : jid = j'.id
        · subst hj
          rw [if_pos rfl, if_neg ha, findJob_cons, if_neg ha, ih, if_pos rfl]
        · rw [if_neg hj, findJob_cons]
          by_cases haj : a.id = jid
          · rw [if_pos haj, if_pos haj]
          · rw [if_neg haj, if_neg haj, ih, if_neg hj]

lemma findJob_map_id_preserved (g : Job → Job) (hg : ∀ j, (g j).id = j.id)
    (jobs : List Job) (jid : Nat) :
    findJob (jobs.map g) jid = (findJob jobs jid).map g := by
  induction jobs with
  | nil => simp [findJob_nil]
  | cons a tl ih =>
      rw [List.map_cons, findJob_cons, findJob_cons, hg a]
      by_cases h : a.id = jid
      · rw [if_pos h, if_pos h]; rfl
      · rw [if_neg h, if_neg h]; exact ih

lemma findJob_append (l₁ l₂ : List Job) (jid : Nat) :
    findJob (l₁ ++ l₂) jid =
      match findJob l₁ jid with
      | some j => some j
      | none => findJob l₂ jid := by
  induction l₁ with
  | nil => simp [findJob_nil]
  | cons a tl ih =>
      rw [List.cons_append, findJob_cons, findJob_cons]
      by_cases h : a.id = jid
      · rw [if_pos h, if_pos h]
      · rw [if_neg h, if_neg h]; exact ih

lemma setJob_eq_of_not_mem (jobs : List Job) (j' : Job)
    (h : ∀ j ∈ jobs, j.id ≠ j'.id) : setJob jobs j' = jobs := by
  induction jobs with
  | nil => rfl
  | cons a tl ih =>
      have hset : setJob (a :: tl) j' = (if a.id = j'.id then j' else a) :: setJob tl j' := rfl
      rw [hset, if_neg (h a (by simp)), ih (fun j hj => h j (by simp [hj]))]

lemma foldl_setJob_cons (f : Job → Job) (h : Job) (t : List Job) (ms : List Job)
    (hms : ∀ m ∈ ms, (f m).id ≠ h.id) :
    ms.foldl (fun acc m => setJob acc (f m)) (h :: t) =
      h :: ms.foldl (fun acc m => setJob acc (f m)) t := by
  induction ms generalizing t with
  | nil => rfl
  | cons m ms ih =>
      rw [List.foldl_cons, List.foldl_cons]
      have hne : ¬ h.id = (f m).id := fun hh => hms m (by simp) hh.symm
      have hstep : setJob (h :: t) (f m) = h :: setJob t (f m) := by
        have : setJob (h :: t) (f m) =
            (if h.id = (f m).id then f m else h) :: setJob t (f m) := rfl
        rw [this, if_neg hne]
      rw [hstep]
      exact ih (setJob t (f m)) (fun m' hm' => hms m' (List.mem_cons_of_mem _ hm'))

/-- With distinct primary keys, flushing each selected-and-mutated ORM object
back over the table is a pointwise map. -/
lemma foldl_setJob_filter (p : Job → Bool) (f : Job → Job) (hf : ∀ m, (f m).id = m.id)
    (jobs : List Job) (hnd : jobs.Pairwise (fun a b => a.id ≠ b.id)) :
    (jobs.filter p).foldl (fun acc m => setJob acc (f m)) jobs =
      jobs.map (fun j => if p j then f j else j) := by
  induction jobs with
  | nil => rfl
  | cons a tl ih =>
      obtain ⟨hhead, htl⟩ := List.pairwise_cons.mp hnd
      have hmemne : ∀ m ∈ tl.filter p, (f m).id ≠ a.id := by
        intro m hm
        rw [hf]
        exact fun he => hhead m (List.mem_of_mem_filter hm) he.symm
      by_cases hp : p a
      · rw [List.filter_cons_of_pos hp, List.foldl_cons]
        have h1 : setJob (a :: tl) (f a) = f a :: tl := by
          have hstep : setJob (a :: tl) (f a) =
              (if a.id = (f a).id then f a else a) :: setJob tl (f a) := rfl
          rw [hstep, if_pos (hf a).symm,
            setJob_eq_of_not_mem tl (f a)
              (fun j hj => by rw [hf]; exact fun he => hhead j hj he.symm)]
        rw [h1, List.map_cons, if_pos hp]
        rw [foldl_setJob_cons f (f a) tl (tl.filter p)
          (fun m hm => by rw [hf, hf]; exact fun he => hhead m (List.mem_of_mem_filter hm) he.symm)]
        rw [ih htl]
      · rw [List.filter_cons_of_neg hp, List.map_cons, if_neg hp]
        rw [foldl_setJob_cons f a tl (tl.filter p)
          (fun m hm => by rw [hf]; exact fun he => hhead m (List.mem_of_mem_filter hm) he.symm)]
        rw [ih htl]

/-- `cancel_session_jobs` characterized: it returns the number of
`pending`/`processing` jobs of the session and flips exactly those, leaving
the queue and every other job untouched. -/
lemma cancelSessionJobs_eq (st : JobStore) (sid : Nat)
    (hnd : st.jobs.Pairwise (fun a b => a.id ≠ b.id)) :
    cancelSessionJobs st sid =
      (st.jobs.countP (cancelTarget sid),
       { st with jobs := st.jobs.map (fun j => if cancelTarget sid j then cancelJob j else j) }) := by
  have h := foldl_setJob_filter (cancelTarget sid) cancelJob (fun m => rfl) st.jobs hnd
  unfold cancelSessionJobs
  rw [List.countP_eq_length_filter]
  show ((List.filter (cancelTarget sid) st.jobs).length,
      ({ jobs := List.foldl (fun acc m => setJob acc (cancelJob m)) st.jobs
          (List.filter (cancelTarget sid) st.jobs), queue := st.queue } : JobStore)) = _
  rw [h]

/-- With an empty dispatch queue and no `pending` job, every worker
iteration is a poll-interval sleep: the state stays put and the handler is
never invoked. -/
lemma runWorkerFuel_idle (handler : DB → Job → Except PErr Unit × DB)
    (maxRetries fuel : Nat) (jobs : List Job) (db : DB)
    (hp : ∀ j ∈ jobs, j.status ≠ JobStatus.pending) :
    runWorkerFuel handler maxRetries fuel { jobs := jobs, queue := [] } db =
      ({ jobs := jobs, queue := [] }, db, 0) := by
  have hfind : jobs.find? (fun j => j.status = JobStatus.pending) = none := by
    rw [List.find?_eq_none]
    intro j hj
    simpa using hp j hj
  induction fuel with
  | zero => rfl
  | succ fuel ih =>
      have hres : reserveNext { jobs := jobs, queue := [] } =
          (none, { jobs := jobs, queue := [] }) := by
        simp [reserveNext, hfind]
      rw [runWorkerFuel, hres]
      exact ih

/-- The transitions the spec's job-lifecycle invariant allows (besides a
status staying put). -/
inductive AllowedTransition : JobStatus → JobStatus → Prop
  | unchanged (s : JobStatus) : AllowedTransition s s
  | reserve : AllowedTransition .pending .processing
  | retry : AllowedTransition .processing .pending
  | complete : AllowedTransition .processing .completed
  | failPending : AllowedTransition .pending .failed
  | failProcessing : AllowedTransition .processing .failed

/-- `AllowedTransition` lifted to the possibly-absent row: the row must
neither appear nor disappear. -/
def OptAllowed : Option JobStatus → Option JobStatus → Prop
  | Option.none, Option.none => True
  | some a, some b => AllowedTransition a b
  | _, _ => False

lemma optAllowed_refl (a : Option JobStatus) : OptAllowed a a := by
  cases a with
  | none => trivial
  | some s => exact AllowedTransition.unchanged s

lemma optAllowed_setJob (jobs : List Job)
    (hnd : jobs.Pairwise (fun a b => a.id ≠ b.id)) (j j' : Job)
    (hj : j ∈ jobs) (hid : j'.id = j.id)
    (ht : AllowedTransition j.status j'.status) (jid : Nat) :
    OptAllowed (statusOf jobs jid) (statusOf (setJob jobs j') jid) := by
  rw [statusOf, statusOf, findJob_setJob]
  by_cases h : jid = j'.id
  · subst h
    rw [if_pos rfl, hid, findJob_eq_of_mem jobs j hnd hj]
    exact ht
  · rw [if_neg h]
    exact optAllowed_refl _

/-- Reduction of `reserveNext` when the dispatch queue is empty (the
full-table-scan path). -/
lemma reserveNext_nil_queue (jobs : List Job) :
    reserveNext { jobs := jobs, queue := [] } =
      match jobs.find? (fun j => j.status = JobStatus.pending) with
      | none => (none, { jobs := jobs, queue := [] })
      | some j =>
          (some { j with status := JobStatus.processing, attempts := j.attempts + 1 },
           { jobs := setJob jobs { j with status := JobStatus.processing, attempts := j.attempts + 1 },
             queue := [] }) := by
  cases hf : jobs.find? (fun j => j.status = JobStatus.pending) <;>
    simp [reserveNext, hf]

/-- Reduction of `reserveNext` when the dispatch queue has a head (the
fetch-by-id path). -/
lemma reserveNext_cons_queue (jobs : List Job) (jid : Nat) (rest : List Nat) :
    reserveNext { jobs := jobs, queue := jid :: rest } =
      match findJob jobs jid with
      | none => (none, { jobs := jobs, queue := rest })
      | some j =>
          (some { j with status := JobStatus.processing, attempts := j.attempts + 1 },
           { jobs := setJob jobs { j with status := JobStatus.processing, attempts := j.attempts + 1 },
             queue := rest }) := by
  cases hf : findJob jobs jid <;> simp [reserveNext, hf]

/-! ### Auxiliary lemmas about the pipeline embedding -/

lemma findRow_map_id_preserved (g : SessionRow → SessionRow)
    (hg : ∀ s, (g s).id = s.id) (sessions : List SessionRow) (sid : Nat) :
    (sessions.map g).find? (fun s => s.id = sid)
      = (sessions.find? (fun s => s.id = sid)).map g := by
  induction sessions with
  | nil => rfl
  | cons a tl ih =>
      by_cases h : a.id = sid
      · rw [List.map_cons, List.find?_cons_of_pos, List.find?_cons_of_pos] <;>
          simp [hg, h]
      · rw [List.map_cons, List.find?_cons_of_neg, List.find?_cons_of_neg]
        · exact ih
        · simpa using h
        · simpa [hg] using h

lemma findSession_setSessionStatus (db : DB) (sid qid : Nat) (st : SessionStatus) :
    findSession (setSessionStatus db sid st) qid
      = (findSession db qid).map (fun s => if s.id = sid then { s with status := st } else s) := by
  unfold findSession setSessionStatus
  exact findRow_map_id_preserved _ (fun s => by by_cases h : s.id = sid <;> simp [h]) db.sessions qid

lemma findSession_setSessionTitle (db : DB) (sid qid : Nat) (t : Option String) :
    findSession (setSessionTitle db sid t) qid
      = (findSession db qid).map (fun s => if s.id = sid then { s with title := t } else s) := by
  unfold findSession setSessionTitle
  exact findRow_map_id_preserved _ (fun s => by by_cases h : s.id = sid <;> simp [h]) db.sessions qid

lemma setSessionFailedIfExists_status (db : DB) (sid : Nat)
    (h : (findSession db sid).isSome) :
    (findSession (setSessionFailedIfExists db sid) sid).map SessionRow.status
      = some SessionStatus.failed := by
  obtain ⟨s, hs⟩ := Option.isSome_iff_exists.mp h
  unfold setSessionFailedIfExists
  rw [hs]
  rw [findSession_setSessionStatus, hs]
  have hsid : s.id = sid := by
    have := List.find?_some hs
    simpa using this
  simp [hsid]

lemma transcriptStep_sessions (db : DB) (sid : Nat) (r : AiResult) (f : Faults)
    (db1 : DB) (h : transcriptStep db sid r f = .ok db1) : db1.sessions = db.sessions := by
  unfold transcriptStep at h
  by_cases ht : (findTranscript db sid).isSome
  · rw [if_pos ht] at h
    obtain rfl := Except.ok.inj h
    rfl
  · rw [if_neg ht] at h
    cases hf : f.transcriptSaveFail with
    | none =>
        rw [hf] at h
        obtain rfl := Except.ok.inj h
        rfl
    | some m => rw [hf] at h; exact absurd h (by simp)

lemma transcriptStep_summaries (db : DB) (sid : Nat) (r : AiResult) (f : Faults)
    (db1 : DB) (h : transcriptStep db sid r f = .ok db1) : db1.summaries = db.summaries := by
  unfold transcriptStep at h
  by_cases ht : (findTranscript db sid).isSome
  · rw [if_pos ht] at h
    obtain rfl := Except.ok.inj h
    rfl
  · rw [if_neg ht] at h
    cases hf : f.transcriptSaveFail with
    | none =>
        rw [hf] at h
        obtain rfl := Except.ok.inj h
        rfl
    | some m => rw [hf] at h; exact absurd h (by simp)

lemma summaryStep_sessions (db : DB) (sid : Nat) (r : AiResult) (f : Faults) :
    (summaryStep db sid r f).sessions = db.sessions := by
  unfold summaryStep
  by_cases hs : (findSummary db sid).isSome
  · rw [if_pos hs]
  · rw [if_neg hs]
    cases f.summarySaveFail <;> rfl

lemma summaryStep_transcripts (db : DB) (sid : Nat) (r : AiResult) (f : Faults) :
    (summaryStep db sid r f).transcripts = db.transcripts := by
  unfold summaryStep
  by_cases hs : (findSummary db sid).isSome
  · rw [if_pos hs]
  · rw [if_neg hs]
    cases f.summarySaveFail <;> rfl

lemma titleStep_sessions_isSome (db : DB) (sid qid : Nat) (s : SessionRow) (r : AiResult) :
    (findSession (titleStep db sid s r) qid).isSome = (findSession db qid).isSome := by
  unfold titleStep
  by_cases h : shouldUpdateTitle s r
  · rw [if_pos h, findSession_setSessionTitle]
    cases findSession db qid <;> rfl
  · rw [if_neg h]

lemma titleStep_transcripts (db : DB) (sid : Nat) (s : SessionRow) (r : AiResult) :
    (titleStep db sid s r).transcripts = db.transcripts := by
  unfold titleStep
  by_cases h : shouldUpdateTitle s r
  · rw [if_pos h]; rfl
  · rw [if_neg h]

lemma titleStep_summaries (db : DB) (sid : Nat) (s : SessionRow) (r : AiResult) :
    (titleStep db sid s r).summaries = db.summaries := by
  unfold titleStep
  by_cases h : shouldUpdateTitle s r
  · rw [if_pos h]; rfl
  · rw [if_neg h]

lemma processSession_none (db : DB) (sid : Nat) (g : Except String AiResult) (f : Faults)
    (hs : findSession db sid = none) :
    processSession db sid g f = (.error .sessionNotFound, db) := by
  unfold processSession
  rw [hs]

/-- Reduction of `process_session` once the session row is found. -/
lemma processSession_some (db : DB) (sid : Nat) (s : SessionRow)
    (g : Except String AiResult) (f : Faults)
    (hs : findSession db sid = some s) :
    processSession db sid g f =
      (if !s.hasAudioAsset then (.error .missingAsset, db)
      else if !s.audioFileExists then (.error .audioFileMissing, db)
      else if (findTranscript db sid).isSome && (findSummary db sid).isSome then
        (.ok (), setSessionStatus db sid .ready)
      else geminiStep db sid s f g) := by
  unfold processSession
  rw [hs]

/-- Reduction of `process_session` past the session/asset/file checks when
the short-circuit does not fire. -/
lemma processSession_checksPassed (db : DB) (sid : Nat) (s : SessionRow)
    (g : Except String AiResult) (f : Faults)
    (hs : findSession db sid = some s) (ha : s.hasAudioAsset = true)
    (hfe : s.audioFileExists = true)
    (hboth : ((findTranscript db sid).isSome && (findSummary db sid).isSome) = false) :
    processSession db sid g f = geminiStep db sid s f g := by
  rw [processSession_some db sid s g f hs, ha, hfe, hboth]
  rfl

lemma findSession_isSome_setSessionStatus (db : DB) (sid qid : Nat) (st : SessionStatus) :
    (findSession (setSessionStatus db sid st) qid).isSome = (findSession db qid).isSome := by
  rw [findSession_setSessionStatus]
  cases findSession db qid <;> rfl

/-- `process_session` neither creates nor deletes session rows: the row
looked up by any id is present afterwards iff it was before. -/
lemma processSession_session_isSome (db : DB) (sid qid : Nat)
    (g : Except String AiResult) (f : Faults) :
    (findSession (processSession db sid g f).2 qid).isSome
      = (findSession db qid).isSome := by
  cases hs : findSession db sid with
  | none => rw [processSession_none db sid g f hs]
  | some s =>
      rw [processSession_some db sid s g f hs]
      by_cases ha : (!s.hasAudioAsset) = true
      · rw [if_pos ha]
      · rw [if_neg ha]
        by_cases hfe : (!s.audioFileExists) = true
        · rw [if_pos hfe]
        · rw [if_neg hfe]
          by_cases hboth : ((findTranscript db sid).isSome && (findSummary db sid).isSome) = true
          · rw [if_pos hboth]
            exact findSession_isSome_setSessionStatus db sid qid .ready
          · rw [if_neg hboth]
            cases g with
            | error m => exact findSession_isSome_setSessionStatus db sid qid .failed
            | ok r =>
                rw [geminiStep]
                cases htr : transcriptStep db sid r f with
                | error m => rw [transcriptOutcome]
                | ok db1 =>
                    rw [transcriptOutcome]
                    rw [findSession_isSome_setSessionStatus]
                    have h1 : (findSession (summaryStep (titleStep db1 sid s r) sid r f) qid).isSome
                        = (findSession (titleStep db1 sid s r) qid).isSome := by
                      unfold findSession
                      rw [summaryStep_sessions]
                    rw [h1, titleStep_sessions_isSome]
                    unfold findSession
                    rw [transcriptStep_sessions db sid r f db1 htr]

/-- A full successful run of `process_session` on a fresh one-session
database: it saves the transcript row, maybe retitles, saves the summary
row, and marks the session `ready`. -/
lemma processSession_clean_run (s : SessionRow) (sid : Nat) (r : AiResult)
    (hid : s.id = sid) (ha : s.hasAudioAsset = true) (hfe : s.audioFileExists = true) :
    processSession { sessions := [s], transcripts := [], summaries := [] } sid
        (.ok r) noFaults =
      (.ok (),
       { sessions := [{ (if shouldUpdateTitle s r then { s with title := r.title } else s) with status := SessionStatus.ready }],
         transcripts := [transcriptRowOf sid r],
         summaries := [summaryRowOf sid r] }) := by
  have hfs : findSession { sessions := [s], transcripts := [], summaries := [] } sid
      = some s := by simp [findSession, hid]
  rw [processSession_checksPassed _ sid s _ _ hfs ha hfe rfl]
  rw [geminiStep]
  rw [show transcriptStep { sessions := [s], transcripts := [], summaries := [] } sid r noFaults
      = Except.ok { sessions := [s], transcripts := [transcriptRowOf sid r], summaries := [] }
      from rfl]
  rw [transcriptOutcome]
  by_cases hup : shouldUpdateTitle s r <;>
    simp [titleStep, hup, setSessionTitle, summaryStep, findSummary, findTranscript,
      setSessionStatus, noFaults, hid, transcriptRowOf, summaryRowOf]

lemma setSessionStatus_transcripts (db : DB) (sid : Nat) (st : SessionStatus) :
    (setSessionStatus db sid st).transcripts = db.transcripts := rfl

lemma setSessionStatus_summaries (db : DB) (sid : Nat) (st : SessionStatus) :
    (setSessionStatus db sid st).summaries = db.summaries := rfl

/-- The idempotent short-circuit: with both rows present (and the checks
passing) the handler sets `ready` and stops, for every adapter outcome. -/
lemma processSession_already_done (db : DB) (sid : Nat) (s : SessionRow)
    (hs : findSession db sid = some s) (ha : s.hasAudioAsset = true)
    (hfe : s.audioFileExists = true) (ht : (findTranscript db sid).isSome = true)
    (hsu : (findSummary db sid).isSome = true)
    (g : Except String AiResult) (f : Faults) :
    processSession db sid g f = (.ok (), setSessionStatus db sid .ready) := by
  rw [processSession_some db sid s g f hs, ha, hfe, ht, hsu]
  rfl

/-- A run never touches the transcripts table when a transcript for the
session already exists. -/
lemma processSession_transcripts_of_exists (db : DB) (sid : Nat)
    (g : Except String AiResult) (f : Faults)
    (ht : (findTranscript db sid).isSome = true) :
    (processSession db sid g f).2.transcripts = db.transcripts := by
  cases hs : findSession db sid with
  | none => rw [processSession_none db sid g f hs]
  | some s =>
      rw [processSession_some db sid s g f hs]
      by_cases ha : (!s.hasAudioAsset) = true
      · rw [if_pos ha]
      · rw [if_neg ha]
        by_cases hfe : (!s.audioFileExists) = true
        · rw [if_pos hfe]
        · rw [if_neg hfe]
          by_cases hboth : ((findTranscript db sid).isSome && (findSummary db sid).isSome) = true
          · rw [if_pos hboth]
            rfl
          · rw [if_neg hboth]
            cases g with
            | error m => rfl
            | ok r =>
                rw [geminiStep]
                have htr : transcriptStep db sid r f = .ok db := by
                  unfold transcriptStep
                  rw [if_pos ht]
                rw [htr, transcriptOutcome]
                rw [setSessionStatus_transcripts, summaryStep_transcripts, titleStep_transcripts]

/-- A run never touches the summaries table when a summary for the session
already exists. -/
lemma processSession_summaries_of_exists (db : DB) (sid : Nat)
    (g : Except String AiResult) (f : Faults)
    (hsu : (findSummary db sid).isSome = true) :
    (processSession db sid g f).2.summaries = db.summaries := by
  cases hs : findSession db sid with
  | none => rw [processSession_none db sid g f hs]
  | some s =>
      rw [processSession_some db sid s g f hs]
      by_cases ha : (!s.hasAudioAsset) = true
      · rw [if_pos ha]
      · rw [if_neg ha]
        by_cases hfe : (!s.audioFileExists) = true
        · rw [if_pos hfe]
        · rw [if_neg hfe]
          by_cases hboth : ((findTranscript db sid).isSome && (findSummary db sid).isSome) = true
          · rw [if_pos hboth]
            rfl
          · rw [if_neg hboth]
            cases g with
            | error m => rfl
            | ok r =>
                rw [geminiStep]
                cases htr : transcriptStep db sid r f with
                | error m => rfl
                | ok db1 =>
                    rw [transcriptOutcome, setSessionStatus_summaries]
                    have hsu1 : (findSummary (titleStep db1 sid s r) sid).isSome = true := by
                      unfold findSummary
                      rw [titleStep_summaries]
                      have h2 := transcriptStep_summaries db sid r f db1 htr
                      unfold findSummary at hsu
                      rw [h2]
                      exact hsu
                    have : summaryStep (titleStep db1 sid s r) sid r f = titleStep db1 sid s r := by
                      unfold summaryStep
                      rw [if_pos hsu1]
                    rw [this, titleStep_summaries]
                    exact transcriptStep_summaries db sid r f db1 htr

/-- One loop iteration that found a job: the step to the recorded-outcome
state, with the invocation counter bumped. -/
lemma runWorkerFuel_succ_found (handler : DB → Job → Except PErr Unit × DB)
    (maxRetries fuel : Nat) (store : JobStore) (db : DB) (job : Job) (store1 : JobStore)
    (h : reserveNext store = (some job, store1)) :
    runWorkerFuel handler maxRetries (fuel + 1) store db =
      ((runWorkerFuel handler maxRetries fuel
          (recordOutcome maxRetries store1 job (handler db job)).1
          (recordOutcome maxRetries store1 job (handler db job)).2).1,
       (runWorkerFuel handler maxRetries fuel
          (recordOutcome maxRetries store1 job (handler db job)).1
          (recordOutcome maxRetries store1 job (handler db job)).2).2.1,
       (runWorkerFuel handler maxRetries fuel
          (recordOutcome maxRetries store1 job (handler db job)).1
          (recordOutcome maxRetries store1 job (handler db job)).2).2.2 + 1) := by
  rw [runWorkerFuel, h]

/-- A full successful run of `process_session` when the summary commit is
forced to fail: the transcript row survives, no summary row is created, the
handler returns successfully, and the session is left `processing`. -/
lemma processSession_summary_fault_run (s : SessionRow) (sid : Nat) (r : AiResult) (m : String)
    (hid : s.id = sid) (ha : s.hasAudioAsset = true) (hfe : s.audioFileExists = true) :
    processSession { sessions := [s], transcripts := [], summaries := [] } sid (.ok r)
        { transcriptSaveFail := none, summarySaveFail := some m } =
      (.ok (),
       { sessions := [{ (if shouldUpdateTitle s r then { s with title := r.title } else s) with status := SessionStatus.processing }],
         transcripts := [transcriptRowOf sid r],
         summaries := [] }) := by
  have hfs : findSession { sessions := [s], transcripts := [], summaries := [] } sid
      = some s := by simp [findSession, hid]
  rw [processSession_checksPassed _ sid s _ _ hfs ha hfe rfl]
  rw [geminiStep]
  rw [show transcriptStep { sessions := [s], transcripts := [], summaries := [] } sid r
        { transcriptSaveFail := none, summarySaveFail := some m }
      = Except.ok { sessions := [s], transcripts := [transcriptRowOf sid r], summaries := [] }
      from rfl]
  rw [transcriptOutcome]
  by_cases hup : shouldUpdateTitle s r <;>
    simp [titleStep, hup, setSessionTitle, summaryStep, findSummary, findTranscript,
      setSessionStatus, hid, transcriptRowOf]

/-! ## Claims -/

/-! ### Concrete fixtures for witnesses and counterexamples -/

def sampleSession : SessionRow :=
  { id := 7, userId := 1, status := .processing, title := some "recording_123",
    durationSec := some 60, hasAudioAsset := true, audioFileExists := true }

/-- A freshly-created session with its audio file on disk and no rows yet. -/
def sampleDB : DB := { sessions := [sampleSession], transcripts := [], summaries := [] }

def sampleResult : AiResult :=
  { text := "hello world", segments := [], speakers := [], title := some "Team sync",
    summaryField := some (.dict [("summary", .str "short"),
      ("action_items", .list [.str "a"]), ("timeline", .list []),
      ("decisions", .list [])]) }

def sampleTranscript : TranscriptRow :=
  { sessionId := 7, text := "t", segments := [], speakers := [] }

def sampleSummary : SummaryRow :=
  { sessionId := 7, summaryText := "s", actionItems := [], timeline := [],
    decisions := [] }

/-- A session that already has both rows and whose audio file is present. -/
def doneDB : DB :=
  { sessions := [sampleSession], transcripts := [sampleTranscript],
    summaries := [sampleSummary] }

/-- The same state with the audio file gone. -/
def doneNoFileDB : DB :=
  { sessions := [{ sampleSession with audioFileExists := false }],
    transcripts := [sampleTranscript], summaries := [sampleSummary] }

/-- A fresh session whose audio file is missing. -/
def fileMissingDB : DB :=
  { sessions := [{ sampleSession with audioFileExists := false }],
    transcripts := [], summaries := [] }

def sampleEnv : HandlerEnv :=
  { gemini := .ok sampleResult, faults := noFaults, timedOut := false }

def job7 : Job :=
  { id := 1, jobType := "transcription", sessionId := some 7, payload := 7,
    status := .processing, attempts := 1, error := none, createdAt := 0 }

/-- **C4 (corrected)**: for a session that already has both a Transcript and
a Summary, the handler sets the session `ready` and returns, and the AI
adapter is not invoked (the outcome is identical for every adapter result
and fault pattern) — but this short-circuit runs only *after* the
session/asset/audio-file checks: the audio-file absence check precedes it,
so a missing file fails the attempt even when both rows exist. -/
theorem C4_idempotent_short_circuit (db : DB) (sid : Nat) (s : SessionRow)
    (hs : findSession db sid = some s) (ha : s.hasAudioAsset = true)
    (hfe : s.audioFileExists = true)
    (ht : (findTranscript db sid).isSome = true)
    (hsu : (findSummary db sid).isSome = true) :
    ∀ (gemini : Except String AiResult) (faults : Faults),
      processSession db sid gemini faults = (.ok (), setSessionStatus db sid .ready) := by
  intro gemini faults
  rw [processSession_some db sid s gemini faults hs, ha, hfe, ht, hsu]
  rfl

/-- Witness for C4: a concrete already-done session is marked `ready`. -/
theorem C4_idempotent_short_circuit_witness :
    processSession doneDB 7 (.ok sampleResult) noFaults
      = (.ok (), setSessionStatus doneDB 7 .ready) :=
  C4_idempotent_short_circuit doneDB 7 sampleSession rfl rfl rfl rfl rfl
    (.ok sampleResult) noFaults

/-- **C4 counterexample**: with both rows present but the audio file absent,
the handler raises `Audio file missing` instead of reaching the
short-circuit — the file check is *not* after (nor bypassed by) the
already-done check, so the session is not set `ready`. -/
theorem C4_counterexample :
    (findTranscript doneNoFileDB 7).isSome = true ∧
    (findSummary doneNoFileDB 7).isSome = true ∧
    processSession doneNoFileDB 7 (.ok sampleResult) noFaults
      = (.error .audioFileMissing, doneNoFileDB) :=
  ⟨rfl, rfl, rfl⟩

/-- **C5 (confirmed)**: whenever the handler cannot proceed — any exception
out of `process_session` (missing asset or file, Gemini error, transcript
commit failure) or the wall-clock timeout — the `app.py` wrapper marks the
session (when it exists) `failed` and still propagates the error to the
worker loop; and a Gemini exception already marks the session `failed`
inside `process_session` itself. -/
theorem C5_failure_marks_session_failed :
    (∀ (env : HandlerEnv) (db : DB) (job : Job) (e : PErr) (db' : DB),
        appHandler env db job = (.error e, db') →
        (findSession db job.payload).isSome = true →
        (findSession db' job.payload).map SessionRow.status = some .failed) ∧
    (∀ (db : DB) (sid : Nat) (s : SessionRow) (msg : String) (f : Faults),
        findSession db sid = some s → s.hasAudioAsset = true →
        s.audioFileExists = true →
        ((findTranscript db sid).isSome && (findSummary db sid).isSome) = false →
        processSession db sid (.error msg) f
          = (.error (.geminiError msg), setSessionStatus db sid .failed)) := by
  constructor
  · intro env db job e db' h hex
    unfold appHandler at h
    by_cases hto : env.timedOut = true
    · rw [if_pos hto] at h
      have hdb' : setSessionFailedIfExists db job.payload = db' := congrArg Prod.snd h
      rw [← hdb']
      exact setSessionFailedIfExists_status db job.payload hex
    · rw [if_neg hto] at h
      cases hp : processSession db job.payload env.gemini env.faults with
      | mk r db1 =>
          rw [hp] at h
          cases r with
          | ok u =>
              rw [handlerOutcome] at h
              exact absurd (congrArg Prod.fst h) (by simp)
          | error e0 =>
              rw [handlerOutcome] at h
              have hdb' : setSessionFailedIfExists db1 job.payload = db' :=
                congrArg Prod.snd h
              rw [← hdb']
              refine setSessionFailedIfExists_status db1 job.payload ?_
              have := processSession_session_isSome db job.payload job.payload
                env.gemini env.faults
              rw [hp] at this
              rw [this]
              exact hex
  · intro db sid s msg f hs ha hfe hboth
    rw [processSession_checksPassed db sid s _ f hs ha hfe hboth]
    rfl

/-- Witness for C5: a missing audio file fails the attempt and the wrapper
marks session 7 `failed`; a Gemini error marks it `failed` inside the
handler. -/
theorem C5_failure_marks_session_failed_witness :
    (findSession (appHandler sampleEnv fileMissingDB job7).2 7).map SessionRow.status
      = some SessionStatus.failed ∧
    processSession sampleDB 7 (.error "boom") noFaults
      = (.error (.geminiError "boom"), setSessionStatus sampleDB 7 .failed) :=
  ⟨C5_failure_marks_session_failed.1 sampleEnv fileMissingDB job7 .audioFileMissing
      (appHandler sampleEnv fileMissingDB job7).2 rfl rfl,
   C5_failure_marks_session_failed.2 sampleDB 7
      ({ sampleSession with audioFileExists := true }) "boom" noFaults rfl rfl rfl rfl⟩



/-- **C1 (corrected)**: a job returned by `reserve_next` always comes from
the store, is flipped to `processing` with its attempts incremented by
exactly one, and no other row is touched; a job selected by the full-table
scan (empty dispatch queue) was `pending` immediately before the call — but
a job fetched via a dispatch-queue id is flipped and returned *regardless*
of its prior status, since the queue path has no status condition. -/
theorem C1_reserve_next_characterization (st : JobStore) (j' : Job) (st' : JobStore)
    (h : reserveNext st = (some j', st')) :
    ∃ j ∈ st.jobs, j.id = j'.id ∧
      j' = { j with status := .processing, attempts := j.attempts + 1 } ∧
      st'.jobs = setJob st.jobs j' ∧
      (st.queue = [] → j.status = .pending) := by
  obtain ⟨jobs, queue⟩ := st
  cases queue with
  | nil =>
      cases hf : jobs.find? (fun j => j.status = JobStatus.pending) with
      | none =>
          rw [reserveNext_nil_queue, hf] at h
          exact absurd h (by simp)
      | some j =>
          rw [reserveNext_nil_queue, hf] at h
          have h1 := congrArg Prod.fst h
          have h2 := congrArg Prod.snd h
          obtain rfl := Option.some.inj h1
          refine ⟨j, List.mem_of_find?_eq_some hf, rfl, rfl, ?_, ?_⟩
          · exact (congrArg JobStore.jobs h2).symm
          · intro _
            have := List.find?_some hf
            simpa using this
  | cons jid rest =>
      cases hf : findJob jobs jid with
      | none =>
          rw [reserveNext_cons_queue, hf] at h
          exact absurd h (by simp)
      | some j =>
          rw [reserveNext_cons_queue, hf] at h
          have h1 := congrArg Prod.fst h
          have h2 := congrArg Prod.snd h
          obtain rfl := Option.some.inj h1
          refine ⟨j, List.mem_of_find?_eq_some hf, rfl, rfl, ?_, ?_⟩
          · exact (congrArg JobStore.jobs h2).symm
          · intro he
            cases he

/-- A one-pending-job store whose dispatch queue is empty, exercising the
scan path of `reserve_next`. -/
def scanJob : Job :=
  { id := 4, jobType := "transcription", sessionId := some 9, payload := 9,
    status := .pending, attempts := 0, error := none, createdAt := 2 }

def scanStore : JobStore := { jobs := [scanJob], queue := [] }

def scanJobReserved : Job := { scanJob with status := .processing, attempts := 1 }

def scanStoreAfter : JobStore := { jobs := setJob scanStore.jobs scanJobReserved, queue := [] }

/-- Witness for C1: the scan path on a one-job store reserves the pending
job. -/
theorem C1_reserve_next_characterization_witness :
    ∃ j ∈ scanStore.jobs, j.id = scanJobReserved.id ∧
      scanJobReserved = { j with status := .processing, attempts := j.attempts + 1 } ∧
      scanStoreAfter.jobs = setJob scanStore.jobs scanJobReserved ∧
      (scanStore.queue = [] → j.status = .pending) :=
  C1_reserve_next_characterization scanStore scanJobReserved scanStoreAfter (by decide)

/-- **C1 counterexample**: enqueue a job for session 7, cancel the session's
jobs while the id is still queued (the job is now `failed`), then call
`reserve_next`: the `failed` job is returned, flipped to `processing`, and
its attempts incremented — contradicting the claim that a job whose current
status is not `pending` is never returned or modified. -/
theorem C1_counterexample :
    (statusOf (cancelSessionJobs (enqueueTranscription ⟨[], []⟩ 1 7 0).2 7).2.jobs 1
        = some .failed) ∧
    ((reserveNext (cancelSessionJobs (enqueueTranscription ⟨[], []⟩ 1 7 0).2 7).2).1.map
        (fun j => (j.id, j.status, j.attempts)) = some (1, .processing, 1)) := by
  decide

/-- **C6 (corrected)**: with distinct primary keys, the store operations
move statuses only along the allowed lifecycle edges — the scan path of
`reserve_next` does `pending → processing`; `mark_complete` on a reserved
(`processing`) job does `processing → completed`; `mark_failed` on a
reserved job does `processing → pending` or `processing → failed`;
`cancel_session_jobs` does `pending/processing → failed`; `enqueue` touches
no existing row — but the dispatch-queue path of `reserve_next` is exempt:
it can move a `completed` or `failed` job back to `processing` (see the
counterexample). -/
theorem C6_forward_transitions (st : JobStore)
    (hnd : st.jobs.Pairwise (fun a b => a.id ≠ b.id)) :
    (st.queue = [] →
      ∀ jid, OptAllowed (statusOf st.jobs jid) (statusOf (reserveNext st).2.jobs jid)) ∧
    (∀ j ∈ st.jobs, j.status = .processing →
      ∀ jid, OptAllowed (statusOf st.jobs jid) (statusOf (markComplete st j).jobs jid)) ∧
    (∀ j ∈ st.jobs, j.status = .processing → ∀ err mr,
      ∀ jid, OptAllowed (statusOf st.jobs jid) (statusOf (markFailed st j err mr).jobs jid)) ∧
    (∀ sid jid,
      OptAllowed (statusOf st.jobs jid) (statusOf (cancelSessionJobs st sid).2.jobs jid)) ∧
    (∀ nid sid now, (∀ j ∈ st.jobs, j.id ≠ nid) → ∀ jid, jid ≠ nid →
      statusOf (enqueueTranscription st nid sid now).2.jobs jid = statusOf st.jobs jid) := by
  obtain ⟨jobs, queue⟩ := st
  refine ⟨?_, ?_, ?_, ?_, ?_⟩
  · rintro rfl jid
    cases hf : jobs.find? (fun j => j.status = JobStatus.pending) with
    | none =>
        rw [reserveNext_nil_queue, hf]
        exact optAllowed_refl _
    | some j =>
        rw [reserveNext_nil_queue, hf]
        have hp : j.status = JobStatus.pending := by simpa using List.find?_some hf
        show OptAllowed (statusOf jobs jid)
          (statusOf (setJob jobs { j with status := JobStatus.processing, attempts := j.attempts + 1 }) jid)
        refine optAllowed_setJob jobs hnd j { j with status := JobStatus.processing, attempts := j.attempts + 1 } (List.mem_of_find?_eq_some hf) rfl ?_ jid
        rw [hp]
        exact AllowedTransition.reserve
  · intro j hj hp jid
    show OptAllowed (statusOf jobs jid)
      (statusOf (setJob jobs { j with status := JobStatus.completed }) jid)
    refine optAllowed_setJob jobs hnd j { j with status := JobStatus.completed } hj rfl ?_ jid
    rw [hp]
    exact AllowedTransition.complete
  · intro j hj hp err mr jid
    unfold markFailed
    by_cases hlt : j.attempts < mr
    · rw [if_pos hlt]
      show OptAllowed (statusOf jobs jid)
        (statusOf (setJob jobs { j with status := JobStatus.pending, error := some ("Retry " ++ toString j.attempts ++ "/" ++ toString mr ++ ": " ++ err.take 200) }) jid)
      refine optAllowed_setJob jobs hnd j { j with status := JobStatus.pending, error := some ("Retry " ++ toString j.attempts ++ "/" ++ toString mr ++ ": " ++ err.take 200) } hj rfl ?_ jid
      rw [hp]
      exact AllowedTransition.retry
    · rw [if_neg hlt]
      show OptAllowed (statusOf jobs jid)
        (statusOf (setJob jobs { j with status := JobStatus.failed, error := some (err.take 255) }) jid)
      refine optAllowed_setJob jobs hnd j { j with status := JobStatus.failed, error := some (err.take 255) } hj rfl ?_ jid
      rw [hp]
      exact AllowedTransition.failProcessing
  · intro sid jid
    rw [(show (cancelSessionJobs ⟨jobs, queue⟩ sid).2.jobs =
        jobs.map (fun j => if cancelTarget sid j then cancelJob j else j) from
      congrArg JobStore.jobs (congrArg Prod.snd (cancelSessionJobs_eq ⟨jobs, queue⟩ sid hnd)))]
    rw [statusOf, statusOf,
      findJob_map_id_preserved _ (fun j => by by_cases h : cancelTarget sid j <;> simp [h, cancelJob]) jobs jid]
    cases hf : findJob jobs jid with
    | none => trivial
    | some j =>
        by_cases hc : cancelTarget sid j
        · have : (j.status = JobStatus.pending ∨ j.status = JobStatus.processing) := by
            have := hc
            unfold cancelTarget at this
            simp only [Bool.and_eq_true, Bool.or_eq_true, decide_eq_true_eq] at this
            exact this.2
          show AllowedTransition j.status (if cancelTarget sid j then cancelJob j else j).status
          rw [if_pos hc]
          rcases this with hp | hp <;> rw [hp]
          · exact AllowedTransition.failPending
          · exact AllowedTransition.failProcessing
        · show AllowedTransition j.status (if cancelTarget sid j then cancelJob j else j).status
          rw [if_neg hc]
          exact AllowedTransition.unchanged _
  · intro nid sid now hfresh jid hjid
    show statusOf (jobs ++ [_]) jid = statusOf jobs jid
    rw [statusOf, statusOf, findJob_append]
    cases hf : findJob jobs jid with
    | some j => rfl
    | none =>
        rw [findJob_cons, findJob_nil, if_neg (fun h : nid = jid => hjid h.symm)]

/-- A two-job store with distinct ids used as the C6 witness input. -/
def twoJobStore : JobStore :=
  { jobs := [{ id := 1, jobType := "transcription", sessionId := some 7, payload := 7,
               status := .processing, attempts := 1, error := none, createdAt := 0 },
             { id := 2, jobType := "transcription", sessionId := some 8, payload := 8,
               status := .pending, attempts := 0, error := none, createdAt := 1 }],
    queue := [] }

/-- Witness for C6 at a concrete two-job store. -/
theorem C6_forward_transitions_witness :
    (twoJobStore.queue = [] →
      ∀ jid, OptAllowed (statusOf twoJobStore.jobs jid)
        (statusOf (reserveNext twoJobStore).2.jobs jid)) ∧
    (∀ j ∈ twoJobStore.jobs, j.status = .processing →
      ∀ jid, OptAllowed (statusOf twoJobStore.jobs jid)
        (statusOf (markComplete twoJobStore j).jobs jid)) ∧
    (∀ j ∈ twoJobStore.jobs, j.status = .processing → ∀ err mr,
      ∀ jid, OptAllowed (statusOf twoJobStore.jobs jid)
        (statusOf (markFailed twoJobStore j err mr).jobs jid)) ∧
    (∀ sid jid, OptAllowed (statusOf twoJobStore.jobs jid)
        (statusOf (cancelSessionJobs twoJobStore sid).2.jobs jid)) ∧
    (∀ nid sid now, (∀ j ∈ twoJobStore.jobs, j.id ≠ nid) → ∀ jid, jid ≠ nid →
      statusOf (enqueueTranscription twoJobStore nid sid now).2.jobs jid
        = statusOf twoJobStore.jobs jid) :=
  C6_forward_transitions twoJobStore (by decide)

/-- **C6 counterexample**: the sequential trace enqueue → cancel → reserve
moves a job from `failed` back to `processing` via the dispatch-queue path,
violating the claimed transition discipline. -/
theorem C6_counterexample :
    statusOf (cancelSessionJobs (enqueueTranscription ⟨[], []⟩ 1 7 0).2 7).2.jobs 1
        = some .failed ∧
    statusOf (reserveNext (cancelSessionJobs (enqueueTranscription ⟨[], []⟩ 1 7 0).2 7).2).2.jobs 1
        = some .processing := by
  decide

/-- **C8 (confirmed)**: `cancel_session_jobs` flips exactly the session's
`pending`/`processing` jobs to `failed` with the cancellation note, returns
the number flipped, and leaves the queue, the jobs of other sessions and the
already-terminal jobs untouched; `delete_session` performs exactly this
cancellation before deleting the row, so deleting a session with one
`pending` and one `processing` job marks both `failed` with the note. -/
theorem C8_cancel_session_jobs (st : JobStore) (sid : Nat)
    (hnd : st.jobs.Pairwise (fun a b => a.id ≠ b.id)) :
    ((cancelSessionJobs st sid).1 = st.jobs.countP (cancelTarget sid)) ∧
    ((cancelSessionJobs st sid).2.queue = st.queue) ∧
    (∀ j ∈ st.jobs, cancelTarget sid j →
        findJob (cancelSessionJobs st sid).2.jobs j.id = some (cancelJob j)) ∧
    (∀ j ∈ st.jobs, ¬ cancelTarget sid j →
        findJob (cancelSessionJobs st sid).2.jobs j.id = some j) ∧
    (∀ db uid db' st' n, deleteSession db st uid sid = .ok (db', st', n) →
        n = st.jobs.countP (cancelTarget sid) ∧
        ∀ j ∈ st.jobs, cancelTarget sid j →
          (findJob st'.jobs j.id).map Job.status = some .failed ∧
          (findJob st'.jobs j.id).map Job.error = some (some cancelNote)) := by
  have hchar := cancelSessionJobs_eq st sid hnd
  have hjobs : (cancelSessionJobs st sid).2.jobs =
      st.jobs.map (fun j => if cancelTarget sid j then cancelJob j else j) :=
    congrArg JobStore.jobs (congrArg Prod.snd hchar)
  have hidpres : ∀ j : Job, ((fun j => if cancelTarget sid j then cancelJob j else j) j).id = j.id := by
    intro j
    by_cases h : cancelTarget sid j <;> simp [h, cancelJob]
  have hpoint : ∀ j ∈ st.jobs, findJob (cancelSessionJobs st sid).2.jobs j.id =
      some (if cancelTarget sid j then cancelJob j else j) := by
    intro j hj
    rw [hjobs, findJob_map_id_preserved _ hidpres, findJob_eq_of_mem st.jobs j hnd hj]
    rfl
  refine ⟨congrArg (fun x => x.1) hchar, congrArg (fun x => x.2.queue) hchar, ?_, ?_, ?_⟩
  · intro j hj hc
    rw [hpoint j hj, if_pos hc]
  · intro j hj hc
    rw [hpoint j hj, if_neg hc]
  · intro db uid db' st' n hdel
    unfold deleteSession at hdel
    cases hfind : db.sessions.find? (fun s => s.id = sid && s.userId = uid) with
    | none => rw [hfind] at hdel; exact absurd hdel (by simp)
    | some s0 =>
        rw [hfind] at hdel
        have hinj := Except.ok.inj hdel
        have hn : (cancelSessionJobs st sid).1 = n := congrArg (fun x => x.2.2) hinj
        have hjobs' : st'.jobs = (cancelSessionJobs st sid).2.jobs.map
            (fun j => if j.sessionId = some sid then { j with sessionId := none } else j) :=
          (congrArg (fun x => x.2.1.jobs) hinj).symm
        constructor
        · rw [← hn]
          exact congrArg (fun x => x.1) hchar
        · intro j hj hc
          have hidp2 : ∀ j : Job,
              ((fun j => if j.sessionId = some sid then { j with sessionId := none } else j) j).id = j.id := by
            intro j
            by_cases h : j.sessionId = some sid <;> simp [h]
          rw [hjobs', findJob_map_id_preserved _ hidp2, hpoint j hj, if_pos hc]
          by_cases h : j.sessionId = some sid <;> simp [h, cancelJob]

/-- A session-7 store with one `pending` and one `processing` job for the
session, one already-`completed` job for it, and a `pending` job of another
session. -/
def cancelScenarioStore : JobStore :=
  { jobs := [{ id := 1, jobType := "transcription", sessionId := some 7, payload := 7,
               status := .pending, attempts := 0, error := none, createdAt := 0 },
             { id := 2, jobType := "transcription", sessionId := some 7, payload := 7,
               status := .processing, attempts := 1, error := none, createdAt := 1 },
             { id := 3, jobType := "transcription", sessionId := some 7, payload := 7,
               status := .completed, attempts := 1, error := none, createdAt := 2 },
             { id := 4, jobType := "transcription", sessionId := some 9, payload := 9,
               status := .pending, attempts := 0, error := none, createdAt := 3 }],
    queue := [4] }

/-- Witness for C8 at the concrete cancellation scenario. -/
theorem C8_cancel_session_jobs_witness :
    ((cancelSessionJobs cancelScenarioStore 7).1
        = cancelScenarioStore.jobs.countP (cancelTarget 7)) ∧
    ((cancelSessionJobs cancelScenarioStore 7).2.queue = cancelScenarioStore.queue) ∧
    (∀ j ∈ cancelScenarioStore.jobs, cancelTarget 7 j →
        findJob (cancelSessionJobs cancelScenarioStore 7).2.jobs j.id = some (cancelJob j)) ∧
    (∀ j ∈ cancelScenarioStore.jobs, ¬ cancelTarget 7 j →
        findJob (cancelSessionJobs cancelScenarioStore 7).2.jobs j.id = some j) ∧
    (∀ db uid db' st' n, deleteSession db cancelScenarioStore uid 7 = .ok (db', st', n) →
        n = cancelScenarioStore.jobs.countP (cancelTarget 7) ∧
        ∀ j ∈ cancelScenarioStore.jobs, cancelTarget 7 j →
          (findJob st'.jobs j.id).map Job.status = some .failed ∧
          (findJob st'.jobs j.id).map Job.error = some (some cancelNote)) :=
  C8_cancel_session_jobs cancelScenarioStore 7 (by decide)

/-- **C7 (confirmed)**: a successful run on a fresh session creates exactly
one Transcript and one Summary row; a re-run (with any adapter outcome and
any fault pattern) short-circuits, changing nothing but the session status;
and in general a run never touches the transcripts (resp. summaries) table
when a row for the session already exists — rows are created only when
absent and never updated in place. -/
theorem C7_idempotent_replay (s : SessionRow) (sid : Nat) (r : AiResult)
    (hid : s.id = sid) (ha : s.hasAudioAsset = true) (hfe : s.audioFileExists = true) :
    ((processSession { sessions := [s], transcripts := [], summaries := [] } sid
        (.ok r) noFaults).2.transcripts.countP (fun t => t.sessionId = sid) = 1) ∧
    ((processSession { sessions := [s], transcripts := [], summaries := [] } sid
        (.ok r) noFaults).2.summaries.countP (fun t => t.sessionId = sid) = 1) ∧
    (∀ (g2 : Except String AiResult) (f2 : Faults),
        processSession (processSession { sessions := [s], transcripts := [], summaries := [] } sid (.ok r) noFaults).2 sid g2 f2
          = (.ok (), setSessionStatus (processSession { sessions := [s], transcripts := [], summaries := [] } sid (.ok r) noFaults).2 sid .ready)) ∧
    (∀ (db : DB) (g : Except String AiResult) (f : Faults),
        (findTranscript db sid).isSome = true →
        (processSession db sid g f).2.transcripts = db.transcripts) ∧
    (∀ (db : DB) (g : Except String AiResult) (f : Faults),
        (findSummary db sid).isSome = true →
        (processSession db sid g f).2.summaries = db.summaries) := by
  have h2 : (processSession { sessions := [s], transcripts := [], summaries := [] } sid
      (.ok r) noFaults).2
      = { sessions := [{ (if shouldUpdateTitle s r then { s with title := r.title } else s) with status := SessionStatus.ready }],
          transcripts := [transcriptRowOf sid r],
          summaries := [summaryRowOf sid r] } :=
    congrArg Prod.snd (processSession_clean_run s sid r hid ha hfe)
  refine ⟨?_, ?_, ?_, ?_, ?_⟩
  · rw [h2]
    simp [transcriptRowOf]
  · rw [h2]
    simp [summaryRowOf]
  · intro g2 f2
    refine processSession_already_done _ sid
      ({ (if shouldUpdateTitle s r then { s with title := r.title } else s) with status := SessionStatus.ready })
      ?_ ?_ ?_ ?_ ?_ g2 f2
    · rw [h2]
      by_cases hup : shouldUpdateTitle s r <;> simp [findSession, hup, hid]
    · by_cases hup : shouldUpdateTitle s r <;> simp [hup, ha]
    · by_cases hup : shouldUpdateTitle s r <;> simp [hup, hfe]
    · rw [h2]
      simp [findTranscript, transcriptRowOf]
    · rw [h2]
      simp [findSummary, summaryRowOf]
  · intro db g f ht
    exact processSession_transcripts_of_exists db sid g f ht
  · intro db g f hsu
    exact processSession_summaries_of_exists db sid g f hsu

/-- Witness for C7 at the concrete sample session and result. -/
theorem C7_idempotent_replay_witness :
    ((processSession { sessions := [sampleSession], transcripts := [], summaries := [] } 7
        (.ok sampleResult) noFaults).2.transcripts.countP (fun t => t.sessionId = 7) = 1) ∧
    ((processSession { sessions := [sampleSession], transcripts := [], summaries := [] } 7
        (.ok sampleResult) noFaults).2.summaries.countP (fun t => t.sessionId = 7) = 1) ∧
    (∀ (g2 : Except String AiResult) (f2 : Faults),
        processSession (processSession { sessions := [sampleSession], transcripts := [], summaries := [] } 7 (.ok sampleResult) noFaults).2 7 g2 f2
          = (.ok (), setSessionStatus (processSession { sessions := [sampleSession], transcripts := [], summaries := [] } 7 (.ok sampleResult) noFaults).2 7 .ready)) ∧
    (∀ (db : DB) (g : Except String AiResult) (f : Faults),
        (findTranscript db 7).isSome = true →
        (processSession db 7 g f).2.transcripts = db.transcripts) ∧
    (∀ (db : DB) (g : Except String AiResult) (f : Faults),
        (findSummary db 7).isSome = true →
        (processSession db 7 g f).2.summaries = db.summaries) :=
  C7_idempotent_replay sampleSession 7 sampleResult rfl rfl rfl

/-- **C9 (confirmed)**: on a successful fresh run the final session title is
the AI-suggested one exactly under `shouldUpdateTitle`, and
`shouldUpdateTitle` holds iff the AI returned a non-empty title, the session
had a non-empty title, and that title matches one of the five documented
auto-generated patterns; a title matching none of them is kept. -/
theorem C9_title_heuristic (s : SessionRow) (sid : Nat) (r : AiResult)
    (hid : s.id = sid) (ha : s.hasAudioAsset = true) (hfe : s.audioFileExists = true) :
    ((findSession (processSession { sessions := [s], transcripts := [], summaries := [] } sid
        (.ok r) noFaults).2 sid).map SessionRow.title
      = some (if shouldUpdateTitle s r then r.title else s.title)) ∧
    (shouldUpdateTitle s r = true ↔
      (∃ rt, r.title = some rt ∧ rt ≠ "") ∧
      (∃ st', s.title = some st' ∧ st' ≠ "" ∧
        (st'.startsWith "Session " = true ∨ timestampLikeTitle st' = true ∨
         genericFilenameTitle st' = true ∨ longDigitTitle st' = true ∨
         hexLikeTitle st' = true))) := by
  constructor
  · have h2 : (processSession { sessions := [s], transcripts := [], summaries := [] } sid
        (.ok r) noFaults).2
        = { sessions := [{ (if shouldUpdateTitle s r then { s with title := r.title } else s) with status := SessionStatus.ready }],
            transcripts := [transcriptRowOf sid r],
            summaries := [summaryRowOf sid r] } :=
      congrArg Prod.snd (processSession_clean_run s sid r hid ha hfe)
    rw [h2]
    by_cases hup : shouldUpdateTitle s r <;> simp [findSession, hup, hid]
  · cases hrt : r.title with
    | none => simp [shouldUpdateTitle, hrt]
    | some rt =>
        cases hst : s.title with
        | none => simp [shouldUpdateTitle, hrt, hst]
        | some st0 =>
            rw [show shouldUpdateTitle s r = (rt != "" && st0 != "" && isAutoGeneratedTitle st0) by rw [shouldUpdateTitle, hrt, hst]]
            rw [isAutoGeneratedTitle]
            simp only [Bool.and_eq_true, bne_iff_ne, ne_eq, Bool.or_eq_true,
              Option.some.injEq, or_assoc]
            constructor
            · intro h
              exact ⟨⟨rt, rfl, h.1.1⟩, ⟨st0, rfl, h.1.2, h.2⟩⟩
            · intro h
              obtain ⟨⟨rt2, he1, hn1⟩, ⟨st2, he2, hn2, hpat⟩⟩ := h
              subst he1
              subst he2
              exact ⟨⟨hn1, hn2⟩, hpat⟩

/-- Witness for C9: the placeholder title `recording_123` is recognized as
auto-generated and replaced by the AI suggestion. -/
theorem C9_title_heuristic_witness :
    ((findSession (processSession { sessions := [sampleSession], transcripts := [], summaries := [] } 7 (.ok sampleResult) noFaults).2 7).map SessionRow.title
      = some (if shouldUpdateTitle sampleSession sampleResult then sampleResult.title
              else sampleSession.title)) ∧
    (shouldUpdateTitle sampleSession sampleResult = true ↔
      (∃ rt, sampleResult.title = some rt ∧ rt ≠ "") ∧
      (∃ st', sampleSession.title = some st' ∧ st' ≠ "" ∧
        (st'.startsWith "Session " = true ∨ timestampLikeTitle st' = true ∨
         genericFilenameTitle st' = true ∨ longDigitTitle st' = true ∨
         hexLikeTitle st' = true))) :=
  C9_title_heuristic sampleSession 7 sampleResult rfl rfl rfl

/-- A Gemini result whose summary field has a wrong-typed (integer) text
subfield (and no suggested title, so the title step is a no-op). -/
def weirdResult : AiResult :=
  { text := "hello world", segments := [], speakers := [], title := none,
    summaryField := some (.dict [("summary", .int 42)]) }

set_option maxRecDepth 10000 in
/-- **C10 counterexample**: with `summary = 42` (wrong-typed but truthy) the
Summary row is created with text `"42"` — the `str()` coercion — not the
empty string the claim asserts, and the session still reaches `ready`. -/
theorem C10_counterexample :
    ((processSession sampleDB 7 (.ok weirdResult) noFaults).2.summaries
        = [{ sessionId := 7, summaryText := "42", actionItems := [], timeline := [], decisions := [] }]) ∧
    ((findSession (processSession sampleDB 7 (.ok weirdResult) noFaults).2 7).map SessionRow.status
        = some SessionStatus.ready) ∧
    ¬ ("42" = "") :=
  ⟨by rfl, by rfl, by decide⟩

/-- **C10 (corrected/amended)**: on a successful fresh run a Summary row is
always created and the session marked `ready`; a missing or non-dict summary
field yields empty text and empty lists, and wrong-typed list subfields
become empty lists — but a wrong-typed text subfield is coerced with
Python's `str()` when truthy (empty string only when falsy), so the text
need not be empty. -/
theorem C10_summary_validation (s : SessionRow) (sid : Nat) (r : AiResult)
    (hid : s.id = sid) (ha : s.hasAudioAsset = true) (hfe : s.audioFileExists = true) :
    ((processSession { sessions := [s], transcripts := [], summaries := [] } sid (.ok r) noFaults).2.summaries
        = [summaryRowOf sid r]) ∧
    ((findSession (processSession { sessions := [s], transcripts := [], summaries := [] } sid (.ok r) noFaults).2 sid).map SessionRow.status
        = some SessionStatus.ready) ∧
    (extractSummaryFields Option.none
        = { summaryText := "", actionItems := [], timeline := [], decisions := [] }) ∧
    (∀ v : PyVal, isDict v = false →
        extractSummaryFields (some v)
          = { summaryText := "", actionItems := [], timeline := [], decisions := [] }) ∧
    (∀ (es : List (String × PyVal)) (v : PyVal),
        pyGetD (.dict es) "summary" (.str "") = v → isStr v = false →
        (extractSummaryFields (some (.dict es))).summaryText
          = (if truthy v then pyStr v else "")) ∧
    (∀ (es : List (String × PyVal)) (v : PyVal),
        pyGetD (.dict es) "action_items" (.list []) = v → isPyList v = false →
        (extractSummaryFields (some (.dict es))).actionItems = []) ∧
    (∀ (es : List (String × PyVal)) (v : PyVal),
        pyGetD (.dict es) "timeline" (.list []) = v → isPyList v = false →
        (extractSummaryFields (some (.dict es))).timeline = []) ∧
    (∀ (es : List (String × PyVal)) (v : PyVal),
        pyGetD (.dict es) "decisions" (.list []) = v → isPyList v = false →
        (extractSummaryFields (some (.dict es))).decisions = []) := by
  have h2 : (processSession { sessions := [s], transcripts := [], summaries := [] } sid
      (.ok r) noFaults).2
      = { sessions := [{ (if shouldUpdateTitle s r then { s with title := r.title } else s) with status := SessionStatus.ready }],
          transcripts := [transcriptRowOf sid r],
          summaries := [summaryRowOf sid r] } :=
    congrArg Prod.snd (processSession_clean_run s sid r hid ha hfe)
  refine ⟨?_, ?_, rfl, ?_, ?_, ?_, ?_, ?_⟩
  · rw [h2]
  · rw [h2]
    by_cases hup : shouldUpdateTitle s r <;> simp [findSession, hup, hid]
  · intro v hv
    cases v with
    | dict es => exact absurd hv (by simp [isDict])
    | none => rfl
    | bool b => rfl
    | int n => rfl
    | str s0 => rfl
    | list xs => rfl
  · intro es v hv hvs
    show coerceSummaryText (pyGetD (.dict es) "summary" (.str "")) = _
    rw [hv]
    cases v with
    | str s0 => exact absurd hvs (by simp [isStr])
    | none => rfl
    | bool b => rfl
    | int n => rfl
    | list xs => rfl
    | dict es2 => rfl
  · intro es v hv hvs
    show coerceSummaryList (pyGetD (.dict es) "action_items" (.list [])) = _
    rw [hv]
    cases v with
    | list xs => exact absurd hvs (by simp [isPyList])
    | none => rfl
    | bool b => rfl
    | int n => rfl
    | str s0 => rfl
    | dict es2 => rfl
  · intro es v hv hvs
    show coerceSummaryList (pyGetD (.dict es) "timeline" (.list [])) = _
    rw [hv]
    cases v with
    | list xs => exact absurd hvs (by simp [isPyList])
    | none => rfl
    | bool b => rfl
    | int n => rfl
    | str s0 => rfl
    | dict es2 => rfl
  · intro es v hv hvs
    show coerceSummaryList (pyGetD (.dict es) "decisions" (.list [])) = _
    rw [hv]
    cases v with
    | list xs => exact absurd hvs (by simp [isPyList])
    | none => rfl
    | bool b => rfl
    | int n => rfl
    | str s0 => rfl
    | dict es2 => rfl

/-- Witness for C10 at the concrete sample session and result. -/
theorem C10_summary_validation_witness :
    ((processSession { sessions := [sampleSession], transcripts := [], summaries := [] } 7 (.ok sampleResult) noFaults).2.summaries
        = [summaryRowOf 7 sampleResult]) ∧
    ((findSession (processSession { sessions := [sampleSession], transcripts := [], summaries := [] } 7 (.ok sampleResult) noFaults).2 7).map SessionRow.status
        = some SessionStatus.ready) ∧
    (extractSummaryFields Option.none
        = { summaryText := "", actionItems := [], timeline := [], decisions := [] }) ∧
    (∀ v : PyVal, isDict v = false →
        extractSummaryFields (some v)
          = { summaryText := "", actionItems := [], timeline := [], decisions := [] }) ∧
    (∀ (es : List (String × PyVal)) (v : PyVal),
        pyGetD (.dict es) "summary" (.str "") = v → isStr v = false →
        (extractSummaryFields (some (.dict es))).summaryText
          = (if truthy v then pyStr v else "")) ∧
    (∀ (es : List (String × PyVal)) (v : PyVal),
        pyGetD (.dict es) "action_items" (.list []) = v → isPyList v = false →
        (extractSummaryFields (some (.dict es))).actionItems = []) ∧
    (∀ (es : List (String × PyVal)) (v : PyVal),
        pyGetD (.dict es) "timeline" (.list []) = v → isPyList v = false →
        (extractSummaryFields (some (.dict es))).timeline = []) ∧
    (∀ (es : List (String × PyVal)) (v : PyVal),
        pyGetD (.dict es) "decisions" (.list []) = v → isPyList v = false →
        (extractSummaryFields (some (.dict es))).decisions = []) :=
  C10_summary_validation sampleSession 7 sampleResult rfl rfl rfl

/-- A schema-valid Gemini result with no suggested title. -/
def plainResult : AiResult :=
  { text := "hello world", segments := [], speakers := [], title := none,
    summaryField := some (.dict [("summary", .str "short"),
      ("action_items", .list []), ("timeline", .list []), ("decisions", .list [])]) }

/-- An environment whose summary commit always fails. -/
def summaryFaultEnv : HandlerEnv :=
  { gemini := .ok plainResult,
    faults := { transcriptSaveFail := none, summarySaveFail := some "disk full" },
    timedOut := false }

def pendingJob : Job :=
  { id := 1, jobType := "transcription", sessionId := some 7, payload := 7,
    status := .pending, attempts := 0, error := none, createdAt := 0 }

set_option maxRecDepth 10000 in
/-- **C2 counterexample**: with the summary commit forced to fail, one
worker cycle leaves the transcript saved, no summary, and the session
`processing` — but the job ends `completed`, not failed-for-retry: the
handler swallowed the failure and returned success, so no retry will ever
run. -/
theorem C2_counterexample :
    ((runWorkerFuel (appHandler summaryFaultEnv) 3 1 { jobs := [pendingJob], queue := [1] } sampleDB).1.jobs.map
        (fun j => (j.status, j.attempts)) = [(JobStatus.completed, 1)]) ∧
    ((runWorkerFuel (appHandler summaryFaultEnv) 3 1 { jobs := [pendingJob], queue := [1] } sampleDB).2.1.transcripts.map
        (fun t => t.sessionId) = [7]) ∧
    ((runWorkerFuel (appHandler summaryFaultEnv) 3 1 { jobs := [pendingJob], queue := [1] } sampleDB).2.1.summaries = []) ∧
    ((runWorkerFuel (appHandler summaryFaultEnv) 3 1 { jobs := [pendingJob], queue := [1] } sampleDB).2.1.sessions.map
        SessionRow.status = [SessionStatus.processing]) :=
  ⟨by rfl, by rfl, by rfl, by rfl⟩

/-- **C2 (corrected)**: a summary-persistence failure is absorbed: the
already-saved transcript survives, no summary row is created, and the
session stays `processing` — but the handler returns *successfully*, so the
worker marks the job `completed`: it is not reported as failed-for-retry,
its attempt counter does not advance further, and no later run retries the
summary half automatically. -/
theorem C2_summary_failure_absorbed (s : SessionRow) (sid : Nat) (r : AiResult)
    (m : String) (j : Job)
    (hid : s.id = sid) (ha : s.hasAudioAsset = true) (hfe : s.audioFileExists = true)
    (hjp : j.payload = sid) :
    (processSession { sessions := [s], transcripts := [], summaries := [] } sid (.ok r)
        { transcriptSaveFail := none, summarySaveFail := some m }
      = (.ok (),
         { sessions := [{ (if shouldUpdateTitle s r then { s with title := r.title } else s) with status := SessionStatus.processing }],
           transcripts := [transcriptRowOf sid r],
           summaries := [] })) ∧
    (runWorkerFuel (appHandler { gemini := .ok r, faults := { transcriptSaveFail := none, summarySaveFail := some m }, timedOut := false })
        3 1 { jobs := [j], queue := [j.id] } { sessions := [s], transcripts := [], summaries := [] }
      = ({ jobs := [{ j with status := JobStatus.completed, attempts := j.attempts + 1 }], queue := [] },
         { sessions := [{ (if shouldUpdateTitle s r then { s with title := r.title } else s) with status := SessionStatus.processing }],
           transcripts := [transcriptRowOf sid r],
           summaries := [] }, 1)) := by
  have hrun := processSession_summary_fault_run s sid r m hid ha hfe
  refine ⟨hrun, ?_⟩
  have hres : reserveNext { jobs := [j], queue := [j.id] } =
      (some { j with status := JobStatus.processing, attempts := j.attempts + 1 },
       { jobs := [{ j with status := JobStatus.processing, attempts := j.attempts + 1 }], queue := [] }) := by
    rw [reserveNext_cons_queue]
    simp [findJob, setJob]
  rw [show (1 : Nat) = 0 + 1 from rfl,
    runWorkerFuel_succ_found _ 3 0 _ _ _ _ hres]
  have hh : appHandler { gemini := .ok r, faults := { transcriptSaveFail := none, summarySaveFail := some m }, timedOut := false }
      { sessions := [s], transcripts := [], summaries := [] }
      { j with status := JobStatus.processing, attempts := j.attempts + 1 }
      = (.ok (),
         { sessions := [{ (if shouldUpdateTitle s r then { s with title := r.title } else s) with status := SessionStatus.processing }],
           transcripts := [transcriptRowOf sid r],
           summaries := [] }) := by
    unfold appHandler
    have hpp : ({ j with status := JobStatus.processing, attempts := j.attempts + 1 } : Job).payload = sid := hjp
    rw [hpp]
    show handlerOutcome sid (processSession { sessions := [s], transcripts := [], summaries := [] } sid (.ok r)
        { transcriptSaveFail := none, summarySaveFail := some m }) = _
    rw [hrun, handlerOutcome]
  rw [hh, recordOutcome]
  have hmc : markComplete { jobs := [{ j with status := JobStatus.processing, attempts := j.attempts + 1 }], queue := [] }
      { j with status := JobStatus.processing, attempts := j.attempts + 1 }
      = { jobs := [{ j with status := JobStatus.completed, attempts := j.attempts + 1 }], queue := [] } := by
    simp [markComplete, setJob]
  rw [hmc]
  rfl

/-- Witness for C2's amended statement at the concrete sample input. -/
theorem C2_summary_failure_absorbed_witness :
    (processSession { sessions := [sampleSession], transcripts := [], summaries := [] } 7 (.ok plainResult)
        { transcriptSaveFail := none, summarySaveFail := some "disk full" }
      = (.ok (),
         { sessions := [{ (if shouldUpdateTitle sampleSession plainResult then { sampleSession with title := plainResult.title } else sampleSession) with status := SessionStatus.processing }],
           transcripts := [transcriptRowOf 7 plainResult],
           summaries := [] })) ∧
    (runWorkerFuel (appHandler { gemini := .ok plainResult, faults := { transcriptSaveFail := none, summarySaveFail := some "disk full" }, timedOut := false })
        3 1 { jobs := [pendingJob], queue := [pendingJob.id] } { sessions := [sampleSession], transcripts := [], summaries := [] }
      = ({ jobs := [{ pendingJob with status := JobStatus.completed, attempts := pendingJob.attempts + 1 }], queue := [] },
         { sessions := [{ (if shouldUpdateTitle sampleSession plainResult then { sampleSession with title := plainResult.title } else sampleSession) with status := SessionStatus.processing }],
           transcripts := [transcriptRowOf 7 plainResult],
           summaries := [] }, 1)) :=
  C2_summary_failure_absorbed sampleSession 7 plainResult "disk full" pendingJob rfl rfl rfl rfl

/-- The environment of a handler that always throws: the Gemini call fails
on every attempt. -/
def failEnv (msg : String) : HandlerEnv :=
  { gemini := .error msg, faults := noFaults, timedOut := false }

/-- Under `failEnv` the `app.py` handler on a fresh one-session database
raises the Gemini error and leaves the session `failed`. -/
lemma appHandler_failEnv_run (msg : String) (s : SessionRow) (sid : Nat) (j : Job)
    (hid : s.id = sid) (ha : s.hasAudioAsset = true) (hfe : s.audioFileExists = true)
    (hjp : j.payload = sid) :
    appHandler (failEnv msg) { sessions := [s], transcripts := [], summaries := [] } j =
      (.error (.geminiError msg),
       { sessions := [{ s with status := SessionStatus.failed }], transcripts := [], summaries := [] }) := by
  have hfs : findSession { sessions := [s], transcripts := [], summaries := [] } sid = some s := by
    simp [findSession, hid]
  have hp : processSession { sessions := [s], transcripts := [], summaries := [] } sid (.error msg) noFaults
      = (.error (.geminiError msg), setSessionStatus { sessions := [s], transcripts := [], summaries := [] } sid .failed) := by
    rw [processSession_checksPassed _ sid s _ _ hfs ha hfe rfl]
    rfl
  unfold appHandler
  rw [hjp]
  show handlerOutcome sid (processSession { sessions := [s], transcripts := [], summaries := [] } sid (.error msg) noFaults) = _
  rw [hp, handlerOutcome]
  have hset : setSessionStatus { sessions := [s], transcripts := [], summaries := [] } sid SessionStatus.failed
      = { sessions := [{ s with status := SessionStatus.failed }], transcripts := [], summaries := [] } := by
    simp [setSessionStatus, hid]
  rw [hset]
  have hsfe : setSessionFailedIfExists { sessions := [{ s with status := SessionStatus.failed }], transcripts := [], summaries := [] } sid
      = { sessions := [{ s with status := SessionStatus.failed }], transcripts := [], summaries := [] } := by
    unfold setSessionFailedIfExists
    have hfind : findSession { sessions := [{ s with status := SessionStatus.failed }], transcripts := [], summaries := [] } sid
        = some { s with status := SessionStatus.failed } := by simp [findSession, hid]
    rw [hfind]
    simp [setSessionStatus, hid]
  rw [hsfe]

/-- The job row after `mark_failed` resets a just-reserved job for retry
under the always-failing environment. -/
def retriedJobOf (j : Job) (maxRetries : Nat) (msg : String) : Job :=
  { j with
    status := JobStatus.pending,
    attempts := j.attempts + 1,
    error := some ("Retry " ++ toString (j.attempts + 1) ++ "/" ++ toString maxRetries
      ++ ": " ++ (workerErrorMsg (.geminiError msg)).take 200) }

/-- The terminal job row after `mark_failed` exhausts the retries. -/
def failedJobOf (j : Job) (maxRetries : Nat) (msg : String) : Job :=
  { j with
    status := JobStatus.failed,
    attempts := maxRetries,
    error := some ((workerErrorMsg (.geminiError msg)).take 255) }

/-- The one-session database with the session marked `failed`. -/
def failedSessionDB (s : SessionRow) : DB :=
  { sessions := [{ s with status := SessionStatus.failed }], transcripts := [],
    summaries := [] }

/-- The always-failing worker loop, tracked round by round: starting from a
queued job with `attempts = a` and `k = maxRetries - a` rounds to go, the
loop invokes the handler exactly `k` more times, then the job is terminal
`failed` with `attempts = maxRetries` and the truncated error, and the
session is `failed`. -/
lemma runWorker_always_fail (msg : String) (maxRetries sid : Nat) :
    ∀ (k : Nat), 1 ≤ k → ∀ (a fuel : Nat) (j : Job) (s : SessionRow),
      s.id = sid → s.hasAudioAsset = true → s.audioFileExists = true →
      j.payload = sid → j.attempts = a → a + k = maxRetries → k ≤ fuel →
      runWorkerFuel (appHandler (failEnv msg)) maxRetries fuel
          { jobs := [j], queue := [j.id] } { sessions := [s], transcripts := [], summaries := [] }
        = ({ jobs := [failedJobOf j maxRetries msg], queue := [] }, failedSessionDB s, k) := by
  intro k
  induction k with
  | zero => intro h; exact absurd h (by decide)
  | succ k' ih =>
      intro _ a fuel j s hid ha hfe hjp hja hak hkf
      cases fuel with
      | zero => exact absurd hkf (by omega)
      | succ fuel' =>
          have hres : reserveNext { jobs := [j], queue := [j.id] } =
              (some { j with status := JobStatus.processing, attempts := j.attempts + 1 },
               { jobs := [{ j with status := JobStatus.processing, attempts := j.attempts + 1 }], queue := [] }) := by
            rw [reserveNext_cons_queue]
            simp [findJob, setJob]
          rw [runWorkerFuel_succ_found _ maxRetries fuel' _ _ _ _ hres]
          rw [show appHandler (failEnv msg) { sessions := [s], transcripts := [], summaries := [] } { j with status := JobStatus.processing, attempts := j.attempts + 1 } = (.error (.geminiError msg), failedSessionDB s) from appHandler_failEnv_run msg s sid _ hid ha hfe hjp]
          rw [recordOutcome]
          by_cases hlt : ({ j with status := JobStatus.processing, attempts := j.attempts + 1 } : Job).attempts < maxRetries
          · -- retry round
            have hk' : 1 ≤ k' := by
              have hx : j.attempts + 1 < maxRetries := hlt
              omega
            have hmf : markFailed { jobs := [{ j with status := JobStatus.processing, attempts := j.attempts + 1 }], queue := [] } { j with status := JobStatus.processing, attempts := j.attempts + 1 } (workerErrorMsg (.geminiError msg)) maxRetries = { jobs := [retriedJobOf j maxRetries msg], queue := [j.id] } := by
              rw [markFailed, if_pos hlt]
              simp [setJob, retriedJobOf]
            rw [hmf]
            have hIH : runWorkerFuel (appHandler (failEnv msg)) maxRetries fuel'
                (({ jobs := [retriedJobOf j maxRetries msg], queue := [j.id] }, failedSessionDB s) : JobStore × DB).1
                (({ jobs := [retriedJobOf j maxRetries msg], queue := [j.id] }, failedSessionDB s) : JobStore × DB).2
                = ({ jobs := [failedJobOf j maxRetries msg], queue := [] }, failedSessionDB s, k') :=
              ih hk' (a + 1) fuel' (retriedJobOf j maxRetries msg)
                ({ s with status := SessionStatus.failed }) hid ha hfe hjp
                (show j.attempts + 1 = a + 1 by rw [hja]) (by omega) (by omega)
            rw [hIH]
          · -- terminal round
            have hk0 : k' = 0 := by
              have hx : ¬ j.attempts + 1 < maxRetries := hlt
              omega
            have hfin : j.attempts + 1 = maxRetries := by
              have hx : ¬ j.attempts + 1 < maxRetries := hlt
              omega
            have hmf : markFailed { jobs := [{ j with status := JobStatus.processing, attempts := j.attempts + 1 }], queue := [] } { j with status := JobStatus.processing, attempts := j.attempts + 1 } (workerErrorMsg (.geminiError msg)) maxRetries = { jobs := [failedJobOf j maxRetries msg], queue := [] } := by
              rw [markFailed, if_neg hlt]
              simp [setJob, failedJobOf, hfin]
            rw [hmf]
            have hidle : runWorkerFuel (appHandler (failEnv msg)) maxRetries fuel'
                (({ jobs := [failedJobOf j maxRetries msg], queue := [] }, failedSessionDB s) : JobStore × DB).1
                (({ jobs := [failedJobOf j maxRetries msg], queue := [] }, failedSessionDB s) : JobStore × DB).2
                = ({ jobs := [failedJobOf j maxRetries msg], queue := [] }, failedSessionDB s, 0) :=
              runWorkerFuel_idle _ maxRetries fuel' _ _
                (by intro jb hjb
                    simp only [List.mem_singleton] at hjb
                    subst hjb
                    simp [failedJobOf])
            rw [hidle, hk0]

/-- **C3 (confirmed)**: `mark_failed` resets a job to `pending` with the
truncated retry note exactly when `attempts < max_retries` and otherwise
makes it terminal `failed` with the error truncated to the column bound; and
a worker driving an always-throwing handler (Gemini fails every attempt)
invokes the handler exactly `maxRetries` times, after which the job is
terminal `failed` with `attempts = maxRetries` and the truncated error, and
the owning session is `failed`.  (`maxRetries` is `mark_failed`'s parameter,
`3` at `run_worker`'s call site.) -/
theorem C3_bounded_retries (msg : String) (maxRetries : Nat) (hmr : 1 ≤ maxRetries)
    (fuel : Nat) (hfuel : maxRetries ≤ fuel) (sid : Nat) (j : Job) (s : SessionRow)
    (hid : s.id = sid) (ha : s.hasAudioAsset = true) (hfe : s.audioFileExists = true)
    (hjp : j.payload = sid) (hja : j.attempts = 0) :
    (∀ (st : JobStore) (jb : Job) (err : String) (mr : Nat), jb.attempts < mr →
        markFailed st jb err mr
          = { jobs := setJob st.jobs { jb with
                status := JobStatus.pending,
                error := some ("Retry " ++ toString jb.attempts ++ "/" ++ toString mr
                  ++ ": " ++ err.take 200) },
              queue := st.queue ++ [jb.id] }) ∧
    (∀ (st : JobStore) (jb : Job) (err : String) (mr : Nat), ¬ jb.attempts < mr →
        markFailed st jb err mr
          = { st with jobs := setJob st.jobs { jb with
                status := JobStatus.failed,
                error := some (err.take 255) } }) ∧
    (runWorkerFuel (appHandler (failEnv msg)) maxRetries fuel
        { jobs := [j], queue := [j.id] } { sessions := [s], transcripts := [], summaries := [] }
      = ({ jobs := [failedJobOf j maxRetries msg], queue := [] }, failedSessionDB s,
         maxRetries)) := by
  refine ⟨?_, ?_, ?_⟩
  · intro st jb err mr h
    rw [markFailed, if_pos h]
  · intro st jb err mr h
    rw [markFailed, if_neg h]
  · exact runWorker_always_fail msg maxRetries sid maxRetries hmr 0 fuel j s
      hid ha hfe hjp hja (by omega) hfuel

/-- Witness for C3: a concrete pending job, retried to exhaustion in at most
five loop iterations with `max_retries = 3`. -/
theorem C3_bounded_retries_witness :
    (∀ (st : JobStore) (jb : Job) (err : String) (mr : Nat), jb.attempts < mr →
        markFailed st jb err mr
          = { jobs := setJob st.jobs { jb with
                status := JobStatus.pending,
                error := some ("Retry " ++ toString jb.attempts ++ "/" ++ toString mr
                  ++ ": " ++ err.take 200) },
              queue := st.queue ++ [jb.id] }) ∧
    (∀ (st : JobStore) (jb : Job) (err : String) (mr : Nat), ¬ jb.attempts < mr →
        markFailed st jb err mr
          = { st with jobs := setJob st.jobs { jb with
                status := JobStatus.failed,
                error := some (err.take 255) } }) ∧
    (runWorkerFuel (appHandler (failEnv "boom")) 3 5
        { jobs := [pendingJob], queue := [pendingJob.id] }
        { sessions := [sampleSession], transcripts := [], summaries := [] }
      = ({ jobs := [failedJobOf pendingJob 3 "boom"], queue := [] },
         failedSessionDB sampleSession, 3)) :=
  C3_bounded_retries "boom" 3 (by decide) 5 (by decide) 7 pendingJob sampleSession
    rfl rfl rfl rfl rfl

end Replay
